import Mathlib

/-!
# Explorer Animation Engine — formal model

Shallow embedding of `src/components/ExplorerAnimation/explorer-engine.ts`.

Modelling conventions:

* JavaScript numbers (IEEE doubles) are modelled as exact rationals `ℚ`.
  Every double is a rational, so the state machine is faithful except for
  rounding, which no claim here depends on.
* Host math functions (`Math.sin`, `Math.cos`, `Math.sqrt`, fractional
  `**`, the float constant `Math.PI`, and `Math.random`) are abstracted
  into a `Host` structure: the host's float routines are opaque rationals
  from the engine's point of view.  `Math.random` becomes an explicit
  stream `random : ℕ → ℚ` consumed at an explicitly threaded index, so
  randomness is reproducible and quantifiable.
* Claims that are genuinely about real analysis (the knee geometry and the
  wind oscillation) are settled against `ℝ`-level transcriptions of the same
  source lines, using `Real.sqrt` / `Real.sin`.
* The canvas context is modelled as a trace: each drawing routine returns the
  list of `CanvasOp` commands it would issue.  Angle arguments of `arc` /
  `ellipse` are recorded in units of π (the source only ever passes rational
  multiples of `Math.PI` there).
* A `Pool` (pre-sized array + live count) is modelled as the list of its
  first `count` items.  `poolPush` is `· ++ [·]`; swap-remove culling keeps
  exactly the items the source keeps, so culling is modelled as `filter`
  (the source never relies on intra-pool order, cf. spec §4.2).
-/

namespace Explorer

/-! ## Host abstraction: float math and the random stream -/

/-- Host-environment float routines, opaque to the engine: the values of
`Math.sin`/`Math.cos`/`Math.sqrt`, fractional exponentiation `x ** e`,
the float constant `Math.PI`, and the `Math.random` stream. -/
structure Host where
  sinQ : ℚ → ℚ
  cosQ : ℚ → ℚ
  sqrtQ : ℚ → ℚ
  rpowQ : ℚ → ℚ → ℚ
  piQ : ℚ
  random : ℕ → ℚ

/-- `rand(min, max) = min + Math.random() * (max - min)`; consumes one
stream value, returns the draw and the next stream index. -/
def rand (h : Host) (lo hi : ℚ) (i : ℕ) : ℚ × ℕ :=
  (lo + h.random i * (hi - lo), i + 1)

/-- `randInt(min, max) = Math.floor(rand(min, max + 1))`. -/
def randInt (h : Host) (lo hi : ℚ) (i : ℕ) : ℤ × ℕ :=
  let r := rand h lo (hi + 1) i
  (⌊r.1⌋, r.2)

/-! ## Constants -/

def STICKMAN_SCREEN_X_RATIO : ℚ := 35/100
def WALK_SPEED : ℚ := 45
def HEAD_RADIUS : ℚ := 11/2
def TORSO_LENGTH : ℚ := 14
def NECK_LENGTH : ℚ := 3
def UPPER_LEG : ℚ := 8
def LOWER_LEG : ℚ := 7
def UPPER_ARM : ℚ := 6
def LOWER_ARM : ℚ := 5
def GROUND_Y_RATIO : ℚ := 8/10
def MAX_DT : ℚ := 1/10
def FADE_IN_DISTANCE : ℚ := 60

/-- Entity type tags, in the order of the source's `SPAWN_TYPES` list. -/
inductive SpawnType where
  | star | cloud | mountain | bird | ufo | meteor
  | balloon | whale | jellyfish | grassTuft | pebble
  deriving DecidableEq, Repr

def SPAWN_TYPES : List SpawnType :=
  [.star, .cloud, .mountain, .bird, .ufo, .meteor,
   .balloon, .whale, .jellyfish, .grassTuft, .pebble]

/-- Desktop capacity table `ENTITY_CAPS`. -/
def ENTITY_CAPS : SpawnType → ℕ
  | .star => 30
  | .cloud => 6
  | .mountain => 12
  | .bird => 8
  | .ufo => 3
  | .meteor => 2
  | .balloon => 2
  | .whale => 1
  | .jellyfish => 2
  | .grassTuft => 20
  | .pebble => 10

/-- Mobile capacity table `MOBILE_ENTITY_CAPS`. -/
def MOBILE_ENTITY_CAPS : SpawnType → ℕ
  | .star => 18
  | .cloud => 4
  | .mountain => 10
  | .bird => 6
  | .ufo => 2
  | .meteor => 1
  | .balloon => 1
  | .whale => 1
  | .jellyfish => 1
  | .grassTuft => 12
  | .pebble => 6

/-- `caps = isMobile ? MOBILE_ENTITY_CAPS : ENTITY_CAPS`. -/
def capsFor (isMobile : Bool) (t : SpawnType) : ℕ :=
  if isMobile then MOBILE_ENTITY_CAPS t else ENTITY_CAPS t

/-! ## Entities -/

structure StarEntity where
  worldX : ℚ
  y : ℚ
  parallax : ℚ
  size : ℚ
  twinkleOffset : ℚ
  twinkleSpeed : ℚ
  deriving DecidableEq, Repr

structure CloudCircle where
  dx : ℚ
  dy : ℚ
  r : ℚ
  deriving DecidableEq, Repr

structure CloudEntity where
  worldX : ℚ
  y : ℚ
  parallax : ℚ
  circles : List CloudCircle
  driftSpeed : ℚ
  baseOpacity : ℚ
  deriving DecidableEq, Repr

structure MountainEntity where
  worldX : ℚ
  y : ℚ
  parallax : ℚ
  peakHeight : ℚ
  leftWidth : ℚ
  rightWidth : ℚ
  ctrlLeftDx : ℚ
  ctrlLeftDy : ℚ
  ctrlRightDx : ℚ
  ctrlRightDy : ℚ
  deriving DecidableEq, Repr

structure BirdEntity where
  worldX : ℚ
  y : ℚ
  parallax : ℚ
  velocity : ℚ
  flapPhase : ℚ
  wingspan : ℚ
  formationOffsetX : ℚ
  formationOffsetY : ℚ
  deriving DecidableEq, Repr

structure UfoEntity where
  worldX : ℚ
  y : ℚ
  parallax : ℚ
  size : ℚ
  hoverPhase : ℚ
  hasTractorBeam : Bool
  deriving DecidableEq, Repr

structure MeteorEntity where
  worldX : ℚ
  y : ℚ
  parallax : ℚ
  angle : ℚ
  speed : ℚ
  life : ℚ
  maxLife : ℚ
  tailLen : ℚ
  deriving DecidableEq, Repr

structure BalloonEntity where
  worldX : ℚ
  y : ℚ
  parallax : ℚ
  size : ℚ
  driftSpeed : ℚ
  swayPhase : ℚ
  deriving DecidableEq, Repr

structure WhaleEntity where
  worldX : ℚ
  y : ℚ
  parallax : ℚ
  size : ℚ
  velocity : ℚ
  bobPhase : ℚ
  deriving DecidableEq, Repr

structure GrassTuftEntity where
  worldX : ℚ
  y : ℚ
  parallax : ℚ
  bladeCount : ℕ
  bladeHeight : ℚ
  bladeAngles : List ℚ
  deriving DecidableEq, Repr

structure JellyfishEntity where
  worldX : ℚ
  y : ℚ
  parallax : ℚ
  size : ℚ
  pulsePhase : ℚ
  driftSpeed : ℚ
  tentacleCount : ℕ
  tentaclePhases : List ℚ
  deriving DecidableEq, Repr

structure PebbleEntity where
  worldX : ℚ
  y : ℚ
  parallax : ℚ
  radius : ℚ
  deriving DecidableEq, Repr

/-- Cached theme colors (`CachedColors`). -/
structure CachedColors where
  bg : String
  text : String
  textMuted : String
  primary : String
  border : String
  surface : String
  deriving DecidableEq, Repr

/-- Per-type spawn scheduler state (`SpawnTracker`). -/
structure SpawnTracker where
  nextSpawnAt : ℚ
  minInterval : ℚ
  maxInterval : ℚ
  deriving DecidableEq, Repr

/-- The engine's mutable state: the factory closure's `let` variables plus
the eleven per-type pools and the spawner table. -/
structure EngineState where
  isMobile : Bool
  reducedMotion : Bool
  width : ℚ
  height : ℚ
  baseGroundY : ℚ
  worldOffset : ℚ
  walkPhase : ℚ
  time : ℚ
  wind : ℚ
  colors : CachedColors
  stars : List StarEntity
  clouds : List CloudEntity
  mountains : List MountainEntity
  birds : List BirdEntity
  ufos : List UfoEntity
  meteors : List MeteorEntity
  balloons : List BalloonEntity
  whales : List WhaleEntity
  jellyfish : List JellyfishEntity
  grassTufts : List GrassTuftEntity
  pebbles : List PebbleEntity
  spawners : SpawnType → SpawnTracker

/-- Pool size of a given entity type (`pools[type].count`). -/
def poolCount (s : EngineState) : SpawnType → ℕ
  | .star => s.stars.length
  | .cloud => s.clouds.length
  | .mountain => s.mountains.length
  | .bird => s.birds.length
  | .ufo => s.ufos.length
  | .meteor => s.meteors.length
  | .balloon => s.balloons.length
  | .whale => s.whales.length
  | .jellyfish => s.jellyfish.length
  | .grassTuft => s.grassTufts.length
  | .pebble => s.pebbles.length

/-! ## Camera / parallax model and small helpers -/

/-- `toWorldX(screenX, parallax) = screenX + worldOffset * parallax`. -/
def toWorldX (worldOffset screenX parallax : ℚ) : ℚ :=
  screenX + worldOffset * parallax

/-- `sx(entityWorldX, parallax) = entityWorldX - worldOffset * parallax`. -/
def sx (worldOffset entityWorldX parallax : ℚ) : ℚ :=
  entityWorldX - worldOffset * parallax

/-- Atmospheric + edge-fade alpha (`entityAlpha`). -/
def entityAlpha (screenX parallax canvasWidth baseAlpha : ℚ) : ℚ :=
  let depthAlpha := 0.3 + 0.7 * parallax
  let distFromRight := canvasWidth - screenX
  let edgeFade :=
    if 0 < distFromRight ∧ distFromRight < FADE_IN_DISTANCE then
      distFromRight / FADE_IN_DISTANCE
    else 1
  baseAlpha * depthAlpha * edgeFade

/-- Asymmetric walk foot path (`footPathX`). -/
def footPathX (t halfStride : ℚ) : ℚ :=
  if t < 0.6 then halfStride * (1 - t / 0.3)
  else
    let s := (t - 0.6) * 2.5
    halfStride * (6 * s * s - 4 * s * s * s - 1)

/-- Foot lift (`footLiftY`); the half-sine arc goes through the host sine. -/
def footLiftY (h : Host) (t maxLift : ℚ) : ℚ :=
  if t < 0.6 then 0 else h.sinQ ((t - 0.6) * 2.5 * h.piQ) * maxLift

/-- Truncation toward zero, as JavaScript's `%` uses. -/
def truncQ (q : ℚ) : ℤ := if 0 ≤ q then ⌊q⌋ else ⌈q⌉

/-- JavaScript's remainder operator `x % y` on numbers. -/
def jsFmod (x y : ℚ) : ℚ := x - y * (truncQ (x / y) : ℚ)

/-! ## Entity creation

Each creator consumes random-stream values in exactly the source's
evaluation order and returns the next stream index. -/

def createStar (h : Host) (height wX : ℚ) (i : ℕ) : StarEntity × ℕ :=
  let ry := rand h (height * 0.05) (height * 0.45) i
  let rawSize := h.random ry.2
  let rtw := rand h 0 (h.piQ * 2) (ry.2 + 1)
  let rts := rand h 0.8 2.5 rtw.2
  ({ worldX := wX, y := ry.1, parallax := 0.1,
     size := 0.5 + h.rpowQ rawSize 2.5 * 2.8,
     twinkleOffset := rtw.1, twinkleSpeed := rts.1 }, rts.2)

def createCloud (h : Host) (height wX : ℚ) (i : ℕ) : CloudEntity × ℕ :=
  let rr := rand h 6 18 i
  let r := rr.1
  let ry := rand h (height * 0.1) (height * 0.35) rr.2
  let c1 := rand h 0.8 0.95 ry.2
  let c2 := rand h 0.9 1.0 c1.2
  let c3 := rand h 0.8 0.95 c2.2
  let c4 := rand h 0.7 0.9 c3.2
  let c5 := rand h 0.65 0.85 c4.2
  let rd := rand h 1 4 c5.2
  let ro := rand h 0.15 0.25 rd.2
  ({ worldX := wX, y := ry.1, parallax := 0.15,
     circles :=
       [{ dx := -r * 1.1, dy := 0, r := r * c1.1 },
        { dx := 0, dy := 0, r := r * c2.1 },
        { dx := r * 1.1, dy := 0, r := r * c3.1 },
        { dx := -r * 0.5, dy := -r * 0.7, r := r * c4.1 },
        { dx := r * 0.4, dy := -r * 0.65, r := r * c5.1 }],
     driftSpeed := rd.1, baseOpacity := ro.1 }, ro.2)

def createMountain (h : Host) (baseGroundY wX hgt wL wR : ℚ) (i : ℕ) :
    MountainEntity × ℕ :=
  let r1 := rand h (-0.15) 0.15 i
  let r2 := rand h 0.3 0.6 r1.2
  let r3 := rand h (-0.15) 0.15 r2.2
  let r4 := rand h 0.3 0.6 r3.2
  ({ worldX := wX, y := baseGroundY, parallax := 0.2,
     peakHeight := hgt, leftWidth := wL, rightWidth := wR,
     ctrlLeftDx := r1.1 * wL, ctrlLeftDy := r2.1 * hgt,
     ctrlRightDx := r3.1 * wR, ctrlRightDy := r4.1 * hgt }, r4.2)

/-- One iteration of `spawnMountainCluster`'s peak-building loop.  The
source `break`s when `mountains.count + tempPeaks.length >= caps.mountain`;
that condition is monotone in the accumulated peaks, so skipping every
iteration once it holds is the same control flow. -/
def clusterStep (h : Host) (cap poolLen : ℕ) (gY center : ℚ) (cnt : ℤ)
    (acc : List MountainEntity × ℕ) (k : ℕ) : List MountainEntity × ℕ :=
  let temp := acc.1
  if cap ≤ poolLen + temp.length then acc
  else
    let c := 1 - |(k : ℚ) - ((cnt : ℚ) - 1) / 2| / (((cnt : ℚ) - 1) / 2 + 0.5)
    let maxH := gY * 0.85
    let rh1 := rand h 55 115 acc.2
    let rh2 := rand h 20 50 rh1.2
    let hgt := min (rh1.1 + c * rh2.1) maxH
    let rs := rand h 30 55 rh2.2
    let spread := ((k : ℚ) - ((cnt : ℚ) - 1) / 2) * rs.1
    let rwL := rand h 25 65 rs.2
    let rwR := rand h 25 65 rwL.2
    let p := createMountain h gY (center + spread) hgt rwL.1 rwR.1 rwR.2
    (temp ++ [p.1], p.2)

/-- Descending insertion by `peakHeight` (models
`tempPeaks.sort((a, b) => b.peakHeight - a.peakHeight)`). -/
def insertPeakDesc (p : MountainEntity) : List MountainEntity → List MountainEntity
  | [] => [p]
  | q :: rest =>
    if q.peakHeight ≤ p.peakHeight then p :: q :: rest else q :: insertPeakDesc p rest

def sortPeaksDesc : List MountainEntity → List MountainEntity
  | [] => []
  | p :: rest => insertPeakDesc p (sortPeaksDesc rest)

/-- `spawnMountainCluster(centerWorldX)`: builds 3–5 tallest-first peaks,
capacity permitting, and pushes them into the mountain pool. -/
def spawnMountainCluster (h : Host) (cap : ℕ) (gY center : ℚ)
    (pool : List MountainEntity) (i : ℕ) : List MountainEntity × ℕ :=
  let cnt := randInt h 3 5 i
  let built := (List.range cnt.1.toNat).foldl
    (clusterStep h cap pool.length gY center cnt.1) ([], cnt.2)
  (pool ++ sortPeaksDesc built.1, built.2)

def createBird (h : Host) (height wX : ℚ) (i : ℕ) : BirdEntity × ℕ :=
  let ry := rand h (height * 0.1) (height * 0.4) i
  let rv := rand h 10 20 ry.2
  let rf := rand h 0 (h.piQ * 2) rv.2
  let rw := rand h 5 16 rf.2
  ({ worldX := wX, y := ry.1, parallax := 0.5, velocity := rv.1,
     flapPhase := rf.1, wingspan := rw.1,
     formationOffsetX := 0, formationOffsetY := 0 }, rw.2)

/-- Follower loop of `spawnBirdGroup` (`for (let i = 1; i < groupSize; i++)`
with a capacity `break`). `fuel` is the number of remaining iterations and
`k` the 1-based loop index. -/
def birdFollowers (h : Host) (cap : ℕ) (height : ℚ) (leader : BirdEntity) (wX : ℚ) :
    ℕ → ℕ → List BirdEntity → ℕ → List BirdEntity × ℕ
  | 0, _, pool, i => (pool, i)
  | fuel + 1, k, pool, i =>
    if cap ≤ pool.length then (pool, i)
    else
      let fb := createBird h height wX i
      let rx := rand h 12 20 fb.2
      let ryo := rand h 6 12 rx.2
      let follower :=
        { fb.1 with
          worldX := wX, y := leader.y, velocity := leader.velocity,
          formationOffsetX := -rx.1 * (k : ℚ),
          formationOffsetY := (if k % 2 = 0 then (-1 : ℚ) else 1) * ryo.1 * (k : ℚ) }
      birdFollowers h cap height leader wX fuel (k + 1) (pool ++ [follower]) ryo.2

/-- `spawnBirdGroup(screenX)`: 30% chance of a 2–3-bird formation, else a
single bird; the leader is pushed unconditionally. -/
def spawnBirdGroup (h : Host) (cap : ℕ) (height worldOffset screenX : ℚ)
    (pool : List BirdEntity) (i : ℕ) : List BirdEntity × ℕ :=
  let wX := toWorldX worldOffset screenX 0.5
  let isFormation := decide (h.random i < 0.3)
  let gs : ℤ × ℕ := if isFormation then randInt h 2 3 (i + 1) else (1, i + 1)
  let lb := createBird h height wX gs.2
  let leader := { lb.1 with worldX := wX }
  birdFollowers h cap height leader wX (gs.1 - 1).toNat 1 (pool ++ [leader]) lb.2

def createUfo (h : Host) (height wX : ℚ) (i : ℕ) : UfoEntity × ℕ :=
  let ry := rand h (height * 0.08) (height * 0.25) i
  let rs := rand h 0.6 1.4 ry.2
  let rh := rand h 0 (h.piQ * 2) rs.2
  let beam := decide (0.5 < h.random rh.2)
  ({ worldX := wX, y := ry.1, parallax := 0.6, size := rs.1,
     hoverPhase := rh.1, hasTractorBeam := beam }, rh.2 + 1)

def createMeteor (h : Host) (height wX : ℚ) (i : ℕ) : MeteorEntity × ℕ :=
  let ry := rand h (height * 0.02) (height * 0.2) i
  let ra := rand h 0.15 0.4 ry.2
  let rs := rand h 200 350 ra.2
  let rt := rand h 25 80 rs.2
  ({ worldX := wX, y := ry.1, parallax := 0.05, angle := ra.1,
     speed := rs.1, life := 2, maxLife := 2, tailLen := rt.1 }, rt.2)

def createBalloon (h : Host) (height wX : ℚ) (i : ℕ) : BalloonEntity × ℕ :=
  let ry := rand h (height * 0.08) (height * 0.3) i
  let rs := rand h 8 20 ry.2
  let rd := rand h 4 12 rs.2
  let rw := rand h 0 (h.piQ * 2) rd.2
  ({ worldX := wX, y := ry.1, parallax := 0.35, size := rs.1,
     driftSpeed := rd.1, swayPhase := rw.1 }, rw.2)

def createWhale (h : Host) (height wX : ℚ) (i : ℕ) : WhaleEntity × ℕ :=
  let rs := rand h 40 95 i
  let s := rs.1
  let minY := s * 0.42 + 4
  let maxY := height * 0.45 - s * 0.42
  let ry := rand h (max minY (height * 0.12)) (max minY maxY) rs.2
  let rb := rand h 0 (h.piQ * 2) ry.2
  ({ worldX := wX, y := ry.1, parallax := 0.55, size := s,
     velocity := 0, bobPhase := rb.1 }, rb.2)

def createJellyfish (h : Host) (height wX : ℚ) (i : ℕ) : JellyfishEntity × ℕ :=
  let tc := randInt h 3 5 i
  let phases := (List.range tc.1.toNat).foldl
    (fun (acc : List ℚ × ℕ) _ =>
      let r := rand h 0 (h.piQ * 2) acc.2
      (acc.1 ++ [r.1], r.2)) ([], tc.2)
  let ry := rand h (height * 0.1) (height * 0.4) phases.2
  let rs := rand h 6 16 ry.2
  let rp := rand h 0 (h.piQ * 2) rs.2
  let rd := rand h 2 6 rp.2
  ({ worldX := wX, y := ry.1, parallax := 0.4, size := rs.1,
     pulsePhase := rp.1, driftSpeed := rd.1,
     tentacleCount := tc.1.toNat, tentaclePhases := phases.1 }, rd.2)

def createGrassTuft (h : Host) (baseGroundY wX : ℚ) (i : ℕ) : GrassTuftEntity × ℕ :=
  let bc := randInt h 2 3 i
  let angles := (List.range bc.1.toNat).foldl
    (fun (acc : List ℚ × ℕ) _ =>
      let r := rand h (-0.4) 0.4 acc.2
      (acc.1 ++ [r.1], r.2)) ([], bc.2)
  let rh := rand h 3 11 angles.2
  ({ worldX := wX, y := baseGroundY, parallax := 1,
     bladeCount := bc.1.toNat, bladeHeight := rh.1,
     bladeAngles := angles.1 }, rh.2)

def createPebble (h : Host) (baseGroundY wX : ℚ) (i : ℕ) : PebbleEntity × ℕ :=
  let ry := rand h 1 3 i
  let rr := rand h 0.8 3.5 ry.2
  ({ worldX := wX, y := baseGroundY + ry.1, parallax := 1, radius := rr.1 }, rr.2)

/-! ## Spawn logic -/

/-- Update one type's tracker in the spawner table. -/
def setTracker (s : EngineState) (t : SpawnType) (tr : SpawnTracker) : EngineState :=
  { s with spawners := fun t' => if t' = t then tr else s.spawners t' }

/-- `spawnEntity(type, screenX)`: mountains spawn a cluster, birds a group;
the simple creators build at `worldX = 0` and then back-project
`worldX = toWorldX(screenX, e.parallax)` before the push. -/
def spawnEntity (h : Host) (t : SpawnType) (screenX : ℚ) (s : EngineState) (i : ℕ) :
    EngineState × ℕ :=
  match t with
  | .mountain =>
    let r := spawnMountainCluster h (capsFor s.isMobile .mountain) s.baseGroundY
      (toWorldX s.worldOffset screenX 0.2) s.mountains i
    ({ s with mountains := r.1 }, r.2)
  | .bird =>
    let r := spawnBirdGroup h (capsFor s.isMobile .bird) s.height s.worldOffset
      screenX s.birds i
    ({ s with birds := r.1 }, r.2)
  | .star =>
    let c := createStar h s.height 0 i
    let e := { c.1 with worldX := toWorldX s.worldOffset screenX c.1.parallax }
    ({ s with stars := s.stars ++ [e] }, c.2)
  | .cloud =>
    let c := createCloud h s.height 0 i
    let e := { c.1 with worldX := toWorldX s.worldOffset screenX c.1.parallax }
    ({ s with clouds := s.clouds ++ [e] }, c.2)
  | .ufo =>
    let c := createUfo h s.height 0 i
    let e := { c.1 with worldX := toWorldX s.worldOffset screenX c.1.parallax }
    ({ s with ufos := s.ufos ++ [e] }, c.2)
  | .meteor =>
    let c := createMeteor h s.height 0 i
    let e := { c.1 with worldX := toWorldX s.worldOffset screenX c.1.parallax }
    ({ s with meteors := s.meteors ++ [e] }, c.2)
  | .balloon =>
    let c := createBalloon h s.height 0 i
    let e := { c.1 with worldX := toWorldX s.worldOffset screenX c.1.parallax }
    ({ s with balloons := s.balloons ++ [e] }, c.2)
  | .whale =>
    let c := createWhale h s.height 0 i
    let e := { c.1 with worldX := toWorldX s.worldOffset screenX c.1.parallax }
    ({ s with whales := s.whales ++ [e] }, c.2)
  | .jellyfish =>
    let c := createJellyfish h s.height 0 i
    let e := { c.1 with worldX := toWorldX s.worldOffset screenX c.1.parallax }
    ({ s with jellyfish := s.jellyfish ++ [e] }, c.2)
  | .grassTuft =>
    let c := createGrassTuft h s.baseGroundY 0 i
    let e := { c.1 with worldX := toWorldX s.worldOffset screenX c.1.parallax }
    ({ s with grassTufts := s.grassTufts ++ [e] }, c.2)
  | .pebble =>
    let c := createPebble h s.baseGroundY 0 i
    let e := { c.1 with worldX := toWorldX s.worldOffset screenX c.1.parallax }
    ({ s with pebbles := s.pebbles ++ [e] }, c.2)

/-- `trySpawn(type)`: distance-triggered; at capacity the spawn is skipped
but `nextSpawnAt` still advances by a fresh draw from the interval. -/
def trySpawn (h : Host) (t : SpawnType) (s : EngineState) (i : ℕ) : EngineState × ℕ :=
  let tr := s.spawners t
  let rightEdge := s.worldOffset + s.width
  if rightEdge < tr.nextSpawnAt then (s, i)
  else if capsFor s.isMobile t ≤ poolCount s t then
    let r := rand h tr.minInterval tr.maxInterval i
    (setTracker s t { tr with nextSpawnAt := rightEdge + r.1 }, r.2)
  else
    let r2 := rand h 20 80 i
    let sp := spawnEntity h t (s.width + r2.1) s r2.2
    let r := rand h tr.minInterval tr.maxInterval sp.2
    (setTracker sp.1 t { tr with nextSpawnAt := rightEdge + r.1 }, r.2)

/-! ## Culling

`cullPool` swap-removes entities that scrolled past `-200` on screen or
whose liveness predicate fails; swap-removal keeps exactly the surviving
items (order inside a pool is never relied upon), so it is modelled as
`List.filter` on the keep condition. -/

/-- Has this entity scrolled more than 200 units past the left edge? -/
def offLeft (worldOffset wXv pxv : ℚ) : Bool :=
  decide (sx worldOffset wXv pxv < -200)

def cullAllPools (s : EngineState) : EngineState :=
  { s with
    stars := s.stars.filter fun e => !offLeft s.worldOffset e.worldX e.parallax
    clouds := s.clouds.filter fun e => !offLeft s.worldOffset e.worldX e.parallax
    mountains := s.mountains.filter fun e => !offLeft s.worldOffset e.worldX e.parallax
    birds := s.birds.filter fun e => !offLeft s.worldOffset e.worldX e.parallax
    ufos := s.ufos.filter fun e => !offLeft s.worldOffset e.worldX e.parallax
    meteors := s.meteors.filter fun e =>
      !offLeft s.worldOffset e.worldX e.parallax && decide (0 < e.life)
    balloons := s.balloons.filter fun e => !offLeft s.worldOffset e.worldX e.parallax
    whales := s.whales.filter fun e => !offLeft s.worldOffset e.worldX e.parallax
    jellyfish := s.jellyfish.filter fun e => !offLeft s.worldOffset e.worldX e.parallax
    grassTufts := s.grassTufts.filter fun e => !offLeft s.worldOffset e.worldX e.parallax
    pebbles := s.pebbles.filter fun e => !offLeft s.worldOffset e.worldX e.parallax }

/-! ## Entity ticks -/

def updateBirds (wind d : ℚ) (l : List BirdEntity) : List BirdEntity :=
  l.map fun e =>
    { e with worldX := e.worldX + (e.velocity + wind * 5) * d,
             flapPhase := e.flapPhase + d * 6 }

def updateUfos (d : ℚ) (l : List UfoEntity) : List UfoEntity :=
  l.map fun e => { e with hoverPhase := e.hoverPhase + d * 2 }

/-- Meteor tick: streak left+down, life decays at 1.5 per simulated second. -/
def stepMeteor (h : Host) (d : ℚ) (e : MeteorEntity) : MeteorEntity :=
  { e with worldX := e.worldX - h.cosQ e.angle * e.speed * d,
           y := e.y + h.sinQ e.angle * e.speed * d,
           life := e.life - d * 1.5 }

def updateMeteors (h : Host) (d : ℚ) (l : List MeteorEntity) : List MeteorEntity :=
  l.map (stepMeteor h d)

def updateBalloons (wind d : ℚ) (l : List BalloonEntity) : List BalloonEntity :=
  l.map fun e =>
    { e with worldX := e.worldX + (e.driftSpeed + wind * 3) * d,
             swayPhase := e.swayPhase + d * 1.5 }

def updateWhales (d : ℚ) (l : List WhaleEntity) : List WhaleEntity :=
  l.map fun e =>
    { e with worldX := e.worldX + e.velocity * d, bobPhase := e.bobPhase + d * 1.2 }

def updateJellyfishPool (wind d : ℚ) (l : List JellyfishEntity) : List JellyfishEntity :=
  l.map fun e =>
    { e with worldX := e.worldX + (e.driftSpeed + wind * 2) * d,
             pulsePhase := e.pulsePhase + d * 2.5 }

def updateClouds (wind d : ℚ) (l : List CloudEntity) : List CloudEntity :=
  l.map fun e => { e with worldX := e.worldX + (e.driftSpeed + wind * 2) * d }

/-! ## Initial scene seeding -/

def clearAllPools (s : EngineState) : EngineState :=
  { s with stars := [], clouds := [], mountains := [], birds := [], ufos := [],
           meteors := [], balloons := [], whales := [], jellyfish := [],
           grassTufts := [], pebbles := [] }

/-- "Evenly slotted" seeding loop: one entity per slot, pushed in order,
with the random-stream index threaded through `step`. -/
def pushRangeLoop {β : Type} (step : ℕ → ℕ → β × ℕ) (n : ℕ)
    (init : List β × ℕ) : List β × ℕ :=
  (List.range n).foldl
    (fun acc k =>
      let c := step acc.2 k
      (acc.1 ++ [c.1], c.2)) init

def seedSkyEntities (h : Host) (s : EngineState) (i : ℕ) : EngineState × ℕ :=
  let starCount : ℕ := if s.isMobile then 14 else 20
  let st := pushRangeLoop
    (fun idx k =>
      let r := rand h 0 (s.width / (starCount : ℚ)) idx
      createStar h s.height (s.width * ((k : ℚ) / (starCount : ℚ)) + r.1) r.2)
    starCount (s.stars, i)
  let cloudCount : ℕ := if s.isMobile then 3 else 4
  let cl := pushRangeLoop
    (fun idx k =>
      let slotStart := (k : ℚ) / (cloudCount : ℚ)
      let slotEnd := ((k : ℚ) + 0.7) / (cloudCount : ℚ)
      let r := rand h slotStart slotEnd idx
      createCloud h s.height (s.width * r.1) r.2)
    cloudCount (s.clouds, st.2)
  let br := rand h 0.55 0.8 cl.2
  let b := createBalloon h s.height (s.width * br.1) br.2
  ({ s with stars := st.1, clouds := cl.1, balloons := s.balloons ++ [b.1] }, b.2)

def seedBirds (h : Host) (s : EngineState) (i : ℕ) : EngineState × ℕ :=
  let r1 := rand h 0.25 0.4 i
  let c1 := createBird h s.height (s.width * r1.1) r1.2
  let f1 := rand h 0 (h.piQ * 2) c1.2
  let b1 := { c1.1 with flapPhase := f1.1 }
  let pool1 := s.birds ++ [b1]
  let r2 := rand h 0.65 0.85 f1.2
  let c2 := createBird h s.height (s.width * r2.1) r2.2
  let f2 := rand h 0 (h.piQ * 2) c2.2
  let leader := { c2.1 with flapPhase := f2.1 }
  let pool2 := pool1 ++ [leader]
  if pool2.length < capsFor s.isMobile .bird then
    let c3 := createBird h s.height leader.worldX f2.2
    let f3 := rand h 0 (h.piQ * 2) c3.2
    let rox := rand h 12 18 f3.2
    let roy := rand h 6 10 rox.2
    let follower :=
      { c3.1 with flapPhase := f3.1, y := leader.y, velocity := leader.velocity,
                  formationOffsetX := -rox.1, formationOffsetY := roy.1 }
    ({ s with birds := pool2 ++ [follower] }, roy.2)
  else ({ s with birds := pool2 }, f2.2)

def seedGroundEntities (h : Host) (s : EngineState) (i : ℕ) : EngineState × ℕ :=
  let rc1 := rand h 0.2 0.35 i
  let m1 := spawnMountainCluster h (capsFor s.isMobile .mountain) s.baseGroundY
    (s.width * rc1.1) s.mountains rc1.2
  let rc2 := rand h 0.7 0.9 m1.2
  let m2 := spawnMountainCluster h (capsFor s.isMobile .mountain) s.baseGroundY
    (s.width * rc2.1) m1.1 rc2.2
  let grassCount : ℕ := if s.isMobile then 8 else 12
  let gr := pushRangeLoop
    (fun idx k =>
      let r := rand h 0 ((s.width / (grassCount : ℚ)) * 0.8) idx
      let x := s.width * ((k : ℚ) / (grassCount : ℚ)) + r.1
      createGrassTuft h s.baseGroundY x r.2)
    grassCount (s.grassTufts, m2.2)
  let pebbleCount : ℕ := if s.isMobile then 4 else 6
  let pb := pushRangeLoop
    (fun idx k =>
      let r := rand h 0 ((s.width / (pebbleCount : ℚ)) * 0.8) idx
      let x := s.width * ((k : ℚ) / (pebbleCount : ℚ)) + r.1
      createPebble h s.baseGroundY x r.2)
    pebbleCount (s.pebbles, gr.2)
  ({ s with mountains := m2.1, grassTufts := gr.1, pebbles := pb.1 }, pb.2)

def populateInitialScene (h : Host) (s : EngineState) (i : ℕ) : EngineState × ℕ :=
  let s0 := clearAllPools s
  let r1 := seedSkyEntities h s0 i
  let r2 := seedBirds h r1.1 r1.2
  seedGroundEntities h r2.1 r2.2

/-! ## Public API -/

/-- `update(dt)`: no-op under reduced motion, else clamp `dt`, advance the
clock/camera/walk phase, recompute the wind, tick all pools, run the
spawner for every type, and cull. -/
def update (h : Host) (dt : ℚ) (s : EngineState) (i : ℕ) : EngineState × ℕ :=
  if s.reducedMotion then (s, i)
  else
    let d := min dt MAX_DT
    let time' := s.time + d
    let wind' := h.sinQ (time' * 0.2) * 0.3 + h.sinQ (time' * 0.07) * 0.2
    let s1 :=
      { s with
        time := time'
        worldOffset := s.worldOffset + WALK_SPEED * d
        walkPhase := s.walkPhase + d * 5
        wind := wind'
        birds := updateBirds wind' d s.birds
        ufos := updateUfos d s.ufos
        meteors := updateMeteors h d s.meteors
        balloons := updateBalloons wind' d s.balloons
        whales := updateWhales d s.whales
        jellyfish := updateJellyfishPool wind' d s.jellyfish
        clouds := updateClouds wind' d s.clouds }
    let s2 := SPAWN_TYPES.foldl (fun (acc : EngineState × ℕ) t => trySpawn h t acc.1 acc.2) (s1, i)
    (cullAllPools s2.1, s2.2)

/-- `resize(w, h)`: update viewport dimensions and the derived ground line. -/
def resize (w hgt : ℚ) (s : EngineState) : EngineState :=
  { s with width := w, height := hgt, baseGroundY := hgt * GROUND_Y_RATIO }

/-- `onThemeChange()`: re-read cached colors from the host lookup. -/
def onThemeChange (newColors : CachedColors) (s : EngineState) : EngineState :=
  { s with colors := newColors }

/-- `setReducedMotion(enabled)`: enabling resets clock, camera, walk phase
and wind to zero and re-seeds the initial scene. -/
def setReducedMotion (h : Host) (enabled : Bool) (s : EngineState) (i : ℕ) :
    EngineState × ℕ :=
  if enabled then
    populateInitialScene h
      { s with reducedMotion := enabled, worldOffset := 0, walkPhase := 0,
               time := 0, wind := 0 } i
  else ({ s with reducedMotion := enabled }, i)

/-- Construction options (`ExplorerEngineOptions`); the color-lookup
callback is modelled by the colors it returns. -/
structure EngineOptions where
  width : ℚ
  height : ℚ
  colors : CachedColors
  isMobile : Bool
  reducedMotion : Bool

/-- Initial spawner table, with all intervals scaled by `sm = 1.5` on mobile. -/
def initialSpawners (width : ℚ) (isMobile : Bool) : SpawnType → SpawnTracker :=
  let sm : ℚ := if isMobile then 1.5 else 1
  fun t =>
    match t with
    | .star => { nextSpawnAt := 0, minInterval := 50 * sm, maxInterval := 100 * sm }
    | .cloud => { nextSpawnAt := width * 0.4, minInterval := 180 * sm, maxInterval := 350 * sm }
    | .mountain => { nextSpawnAt := width * 0.8, minInterval := 400 * sm, maxInterval := 700 * sm }
    | .bird => { nextSpawnAt := width * 0.5, minInterval := 200 * sm, maxInterval := 400 * sm }
    | .meteor => { nextSpawnAt := width * 0.8, minInterval := 400 * sm, maxInterval := 800 * sm }
    | .balloon => { nextSpawnAt := width * 2.2, minInterval := 600 * sm, maxInterval := 1000 * sm }
    | .ufo => { nextSpawnAt := width * 3, minInterval := 900 * sm, maxInterval := 1800 * sm }
    | .whale => { nextSpawnAt := width * 3.8, minInterval := 1400 * sm, maxInterval := 2500 * sm }
    | .jellyfish => { nextSpawnAt := width * 2.5, minInterval := 800 * sm, maxInterval := 1400 * sm }
    | .grassTuft => { nextSpawnAt := 0, minInterval := 30 * sm, maxInterval := 70 * sm }
    | .pebble => { nextSpawnAt := width * 0.2, minInterval := 40 * sm, maxInterval := 90 * sm }

/-- `createExplorerEngine(options)`: initial closure state, then
`populateInitialScene()`. -/
def createEngine (h : Host) (o : EngineOptions) (i : ℕ) : EngineState × ℕ :=
  populateInitialScene h
    { isMobile := o.isMobile
      reducedMotion := o.reducedMotion
      width := o.width
      height := o.height
      baseGroundY := o.height * GROUND_Y_RATIO
      worldOffset := 0
      walkPhase := 0
      time := 0
      wind := 0
      colors := o.colors
      stars := [], clouds := [], mountains := [], birds := [], ufos := []
      meteors := [], balloons := [], whales := [], jellyfish := []
      grassTufts := [], pebbles := []
      spawners := initialSpawners o.width o.isMobile } i

/-! ## Stickman pose -/

structure StickmanPose where
  headX : ℚ
  headY : ℚ
  neckX : ℚ
  neckY : ℚ
  shoulderX : ℚ
  shoulderY : ℚ
  hipX : ℚ
  hipY : ℚ
  leftHandX : ℚ
  leftHandY : ℚ
  rightHandX : ℚ
  rightHandY : ℚ
  leftElbowX : ℚ
  leftElbowY : ℚ
  rightElbowX : ℚ
  rightElbowY : ℚ
  leftFootX : ℚ
  leftFootY : ℚ
  rightFootX : ℚ
  rightFootY : ℚ
  leftKneeX : ℚ
  leftKneeY : ℚ
  rightKneeX : ℚ
  rightKneeY : ℚ

/-- The reduced-motion branch of `computeStickmanPose`: a fixed standing
pose, a pure function of the viewport width and the ground line. -/
def staticPose (width baseGroundY : ℚ) : StickmanPose :=
  let stickX := width * STICKMAN_SCREEN_X_RATIO
  let feetY := baseGroundY - 1
  let legRoom := UPPER_LEG + LOWER_LEG - 2
  let hipY := feetY - legRoom
  let shoulderY := hipY - TORSO_LENGTH
  let neckY := shoulderY - NECK_LENGTH
  let headY := neckY - HEAD_RADIUS
  let kneeY := hipY + UPPER_LEG - 1
  let armY := shoulderY + UPPER_ARM + LOWER_ARM * 0.5
  { headX := stickX, headY := headY, neckX := stickX, neckY := neckY,
    shoulderX := stickX, shoulderY := shoulderY, hipX := stickX, hipY := hipY,
    leftHandX := stickX - 2, leftHandY := armY,
    rightHandX := stickX + 2, rightHandY := armY,
    leftElbowX := stickX - 1.5, leftElbowY := shoulderY + UPPER_ARM,
    rightElbowX := stickX + 1.5, rightElbowY := shoulderY + UPPER_ARM,
    leftFootX := stickX - 2, leftFootY := feetY,
    rightFootX := stickX + 2, rightFootY := feetY,
    leftKneeX := stickX - 1.5, leftKneeY := kneeY,
    rightKneeX := stickX + 1.5, rightKneeY := kneeY }

/-- `computeStickmanPose()`: static pose under reduced motion, else the
biomechanical walk cycle (geometric knees, lagged contralateral arms). -/
def computeStickmanPose (h : Host) (s : EngineState) : StickmanPose :=
  if s.reducedMotion then staticPose s.width s.baseGroundY
  else
    let stickX := s.width * STICKMAN_SCREEN_X_RATIO
    let feetY := s.baseGroundY - 1
    let legRoom := UPPER_LEG + LOWER_LEG - 2
    let HALF_STRIDE : ℚ := 6
    let FOOT_LIFT : ℚ := 6
    let ARM_SWING : ℚ := 0.45
    let ARM_LAG : ℚ := 0.3
    let FOREARM_LAG : ℚ := 0.6
    let FOREARM_RATIO : ℚ := 0.65
    let leftT := jsFmod s.walkPhase (h.piQ * 2) / (h.piQ * 2)
    let rightT := jsFmod (leftT + 0.5) 1
    let bob := |h.sinQ (s.walkPhase * 2)| * 1.2
    let leanAngle : ℚ := 0.03
    let shoulderTwist := h.sinQ s.walkPhase * 1
    let hipX := stickX
    let hipY := feetY - legRoom - bob
    let shoulderY := hipY - TORSO_LENGTH
    let neckY := shoulderY - NECK_LENGTH
    let headY := neckY - HEAD_RADIUS - bob * 0.15
    let spineLen := TORSO_LENGTH + NECK_LENGTH
    let leanX := h.sinQ leanAngle
    let shoulderX := stickX + leanX * TORSO_LENGTH + shoulderTwist
    let neckX := stickX + leanX * spineLen + shoulderTwist * 0.5
    let headX := stickX + leanX * (spineLen + HEAD_RADIUS) + shoulderTwist * 0.25
    let leftFootX := hipX + footPathX leftT HALF_STRIDE
    let leftFootY := feetY - footLiftY h leftT FOOT_LIFT
    let lDx := leftFootX - hipX
    let lDy := leftFootY - hipY
    let lDist := h.sqrtQ (lDx * lDx + lDy * lDy)
    let lHalf := lDist * 0.5
    let lBend := if lHalf < UPPER_LEG then h.sqrtQ (UPPER_LEG ^ 2 - lHalf ^ 2) else 0
    let lInv := if 0.1 < lDist then lBend / lDist else 0
    let leftKneeX := (hipX + leftFootX) * 0.5 + lDy * lInv
    let leftKneeY := (hipY + leftFootY) * 0.5 - lDx * lInv
    let rightFootX := hipX + footPathX rightT HALF_STRIDE
    let rightFootY := feetY - footLiftY h rightT FOOT_LIFT
    let rDx := rightFootX - hipX
    let rDy := rightFootY - hipY
    let rDist := h.sqrtQ (rDx * rDx + rDy * rDy)
    let rHalf := rDist * 0.5
    let rBend := if rHalf < UPPER_LEG then h.sqrtQ (UPPER_LEG ^ 2 - rHalf ^ 2) else 0
    let rInv := if 0.1 < rDist then rBend / rDist else 0
    let rightKneeX := (hipX + rightFootX) * 0.5 + rDy * rInv
    let rightKneeY := (hipY + rightFootY) * 0.5 - rDx * rInv
    let leftUpperAngle := -h.cosQ (s.walkPhase - ARM_LAG) * ARM_SWING
    let leftElbowX := shoulderX + h.sinQ leftUpperAngle * UPPER_ARM
    let leftElbowY := shoulderY + h.cosQ leftUpperAngle * UPPER_ARM
    let leftForeAngle := -h.cosQ (s.walkPhase - FOREARM_LAG) * ARM_SWING * FOREARM_RATIO
    let leftHandX := leftElbowX + h.sinQ leftForeAngle * LOWER_ARM
    let leftHandY := leftElbowY + h.cosQ leftForeAngle * LOWER_ARM
    let rightUpperAngle := h.cosQ (s.walkPhase - ARM_LAG) * ARM_SWING
    let rightElbowX := shoulderX + h.sinQ rightUpperAngle * UPPER_ARM
    let rightElbowY := shoulderY + h.cosQ rightUpperAngle * UPPER_ARM
    let rightForeAngle := h.cosQ (s.walkPhase - FOREARM_LAG) * ARM_SWING * FOREARM_RATIO
    let rightHandX := rightElbowX + h.sinQ rightForeAngle * LOWER_ARM
    let rightHandY := rightElbowY + h.cosQ rightForeAngle * LOWER_ARM
    { headX := headX, headY := headY, neckX := neckX, neckY := neckY,
      shoulderX := shoulderX, shoulderY := shoulderY, hipX := hipX, hipY := hipY,
      leftHandX := leftHandX, leftHandY := leftHandY,
      rightHandX := rightHandX, rightHandY := rightHandY,
      leftElbowX := leftElbowX, leftElbowY := leftElbowY,
      rightElbowX := rightElbowX, rightElbowY := rightElbowY,
      leftFootX := leftFootX, leftFootY := leftFootY,
      rightFootX := rightFootX, rightFootY := rightFootY,
      leftKneeX := leftKneeX, leftKneeY := leftKneeY,
      rightKneeX := rightKneeX, rightKneeY := rightKneeY }

/-! ## Renderer as a canvas-command trace

Angle arguments of `arc`/`ellipse` are recorded in units of π, since the
source only ever passes rational multiples of `Math.PI` to them. -/

inductive CanvasOp where
  | fillRect (x y w h : ℚ)
  | beginPath
  | closePath
  | moveTo (x y : ℚ)
  | lineTo (x y : ℚ)
  | arc (x y r a0pi a1pi : ℚ)
  | ellipse (x y rx ry rot a0pi a1pi : ℚ)
  | quadraticCurveTo (cx cy x y : ℚ)
  | bezierCurveTo (c1x c1y c2x c2y x y : ℚ)
  | rect (x y w h : ℚ)
  | fill
  | stroke
  | setFillStyle (c : String)
  | setStrokeStyle (c : String)
  | setStrokeLinearGradient (x0 y0 x1 y1 : ℚ) (stops : List (ℚ × String))
  | setGlobalAlpha (a : ℚ)
  | setLineWidth (w : ℚ)
  | setLineCap (c : String)
  | setLineJoin (c : String)
  deriving DecidableEq, Repr

/-- `Math.sign`. -/
def signQ (q : ℚ) : ℚ := if 0 < q then 1 else if q < 0 then -1 else 0

def drawStars (h : Host) (s : EngineState) : List CanvasOp :=
  [.setFillStyle s.colors.textMuted] ++
  (s.stars.map fun e =>
    let x := sx s.worldOffset e.worldX e.parallax
    if x < -10 ∨ s.width + 10 < x then []
    else
      let twinkle := 0.4 + 0.6 * |h.sinQ (s.time * e.twinkleSpeed + e.twinkleOffset)|
      [CanvasOp.setGlobalAlpha (entityAlpha x e.parallax s.width twinkle),
       .beginPath, .arc x e.y e.size 0 2, .fill]).flatten ++
  [.setGlobalAlpha 1]

def drawClouds (s : EngineState) : List CanvasOp :=
  [.setFillStyle s.colors.textMuted] ++
  (s.clouds.map fun e =>
    let x := sx s.worldOffset e.worldX e.parallax
    if x < -60 ∨ s.width + 60 < x then []
    else
      [CanvasOp.setGlobalAlpha (entityAlpha x e.parallax s.width e.baseOpacity),
       .beginPath] ++
      (e.circles.map fun c =>
        [CanvasOp.moveTo (x + c.dx + c.r) (e.y + c.dy),
         .arc (x + c.dx) (e.y + c.dy) c.r 0 2]).flatten ++
      [.fill]).flatten ++
  [.setGlobalAlpha 1]

def drawMeteors (h : Host) (s : EngineState) : List CanvasOp :=
  (s.meteors.map fun e =>
    let x := sx s.worldOffset e.worldX e.parallax
    let opacity := e.life / e.maxLife
    let dx := h.cosQ e.angle * e.tailLen
    let dy := h.sinQ e.angle * e.tailLen
    let headX := x
    let headY := e.y
    let tailX := x + dx * 1.5
    let tailY := e.y - dy * 1.5
    let alpha := entityAlpha x e.parallax s.width opacity
    let mScale := e.tailLen / 50
    [CanvasOp.setStrokeLinearGradient headX headY tailX tailY
       [(0, s.colors.primary), (1, "rgba(0, 0, 0, 0)")],
     .setLineWidth (1.5 + mScale), .setLineCap "round", .setGlobalAlpha alpha,
     .beginPath, .moveTo headX headY, .lineTo tailX tailY, .stroke,
     .setGlobalAlpha (alpha * 0.4), .setFillStyle s.colors.primary,
     .beginPath, .arc headX headY (2 + mScale * 2) 0 2, .fill,
     .setGlobalAlpha alpha,
     .beginPath, .arc headX headY (1 + mScale) 0 2, .fill]).flatten ++
  [.setGlobalAlpha 1]

def drawWhaleBody (x cy s tw : ℚ) : List CanvasOp :=
  [.beginPath,
   .moveTo (x - s * 0.95) (cy + s * 0.02),
   .bezierCurveTo (x - s * 0.92) (cy - s * 0.12) (x - s * 0.75) (cy - s * 0.32)
     (x - s * 0.45) (cy - s * 0.36),
   .bezierCurveTo (x - s * 0.15) (cy - s * 0.38) (x + s * 0.2) (cy - s * 0.34)
     (x + s * 0.45) (cy - s * 0.26),
   .bezierCurveTo (x + s * 0.52) (cy - s * 0.24) (x + s * 0.55) (cy - s * 0.3)
     (x + s * 0.58) (cy - s * 0.24),
   .bezierCurveTo (x + s * 0.72) (cy - s * 0.16 + tw * 0.25) (x + s * 0.88)
     (cy - s * 0.06 + tw * 0.5) (x + s * 0.98) (cy - s * 0.02 + tw * 0.7),
   .bezierCurveTo (x + s * 1.06) (cy - s * 0.04 + tw * 0.85) (x + s * 1.18)
     (cy - s * 0.18 + tw) (x + s * 1.28) (cy - s * 0.26 + tw),
   .bezierCurveTo (x + s * 1.3) (cy - s * 0.22 + tw) (x + s * 1.26)
     (cy - s * 0.14 + tw * 0.9) (x + s * 1.12) (cy - s * 0.04 + tw * 0.75),
   .bezierCurveTo (x + s * 1.06) (cy + tw * 0.7) (x + s * 1.06)
     (cy + s * 0.02 + tw * 0.7) (x + s * 1.12) (cy + s * 0.06 + tw * 0.75),
   .bezierCurveTo (x + s * 1.26) (cy + s * 0.16 + tw * 0.9) (x + s * 1.3)
     (cy + s * 0.24 + tw) (x + s * 1.28) (cy + s * 0.28 + tw),
   .bezierCurveTo (x + s * 1.18) (cy + s * 0.2 + tw) (x + s * 1.06)
     (cy + s * 0.08 + tw * 0.85) (x + s * 0.98) (cy + s * 0.04 + tw * 0.7),
   .bezierCurveTo (x + s * 0.85) (cy + s * 0.1 + tw * 0.25) (x + s * 0.65)
     (cy + s * 0.2) (x + s * 0.4) (cy + s * 0.28),
   .bezierCurveTo (x + s * 0.1) (cy + s * 0.34) (x - s * 0.25) (cy + s * 0.36)
     (x - s * 0.55) (cy + s * 0.3),
   .bezierCurveTo (x - s * 0.78) (cy + s * 0.24) (x - s * 0.92) (cy + s * 0.14)
     (x - s * 0.95) (cy + s * 0.02),
   .closePath]

def drawWhaleFin (x cy s : ℚ) : List CanvasOp :=
  [.beginPath,
   .moveTo (x - s * 0.3) (cy + s * 0.2),
   .bezierCurveTo (x - s * 0.38) (cy + s * 0.32) (x - s * 0.52) (cy + s * 0.42)
     (x - s * 0.62) (cy + s * 0.38),
   .bezierCurveTo (x - s * 0.58) (cy + s * 0.32) (x - s * 0.44) (cy + s * 0.26)
     (x - s * 0.3) (cy + s * 0.2),
   .closePath]

def drawWhales (h : Host) (s : EngineState) : List CanvasOp :=
  (s.whales.map fun e =>
    let x := sx s.worldOffset e.worldX e.parallax
    if x < -120 ∨ s.width + 120 < x then []
    else
      let bob := h.sinQ e.bobPhase * 4
      let cy := e.y + bob
      let sz := e.size
      let tailWag := h.sinQ (e.bobPhase * 1.6) * sz * 0.08
      let alpha := entityAlpha x e.parallax s.width 1
      [CanvasOp.setLineCap "round", .setLineJoin "round",
       .setFillStyle s.colors.textMuted, .setGlobalAlpha (alpha * 0.7)] ++
      drawWhaleBody x cy sz tailWag ++ [.fill] ++
      [.setGlobalAlpha (alpha * 0.55)] ++ drawWhaleFin x cy sz ++ [.fill] ++
      [.setStrokeStyle s.colors.surface, .setGlobalAlpha (alpha * 0.3),
       .setLineWidth 0.7, .beginPath] ++
      ((List.range 3).map fun g =>
        let gy := cy + sz * (0.12 + (g : ℚ) * 0.06)
        let gxStart := x - sz * (0.55 - (g : ℚ) * 0.1)
        let gxEnd := x + sz * (0.1 - (g : ℚ) * 0.04)
        [CanvasOp.moveTo gxStart gy,
         .quadraticCurveTo ((gxStart + gxEnd) * 0.5) (gy + sz * 0.03) gxEnd gy]).flatten ++
      [.stroke]).flatten ++
  [.setGlobalAlpha 1]

/-- `drawJellyfish()`: the only draw routine that consumes randomness — each
tentacle's length gets a fresh `rand(0.8, 1.4)` per frame (the source
comments this as intentional per-frame jitter). -/
def drawJellyfishOps (h : Host) (s : EngineState) (i : ℕ) : List CanvasOp × ℕ :=
  let r := s.jellyfish.foldl
    (fun (acc : List CanvasOp × ℕ) e =>
      let x := sx s.worldOffset e.worldX e.parallax
      if x < -30 ∨ s.width + 30 < x then acc
      else
        let sz := e.size
        let pulse := h.sinQ e.pulsePhase * 0.15
        let bellW := sz * (0.7 + pulse)
        let bellH := sz * (0.55 - pulse * 0.3)
        let alpha := entityAlpha x e.parallax s.width 0.55
        let head :=
          [CanvasOp.setFillStyle s.colors.primary, .setGlobalAlpha (alpha * 0.5),
           .beginPath, .ellipse x e.y bellW bellH 0 1 0, .fill,
           .setStrokeStyle s.colors.primary, .setLineWidth 0.8,
           .setGlobalAlpha (alpha * 0.7),
           .beginPath, .ellipse x e.y (bellW * 1.02) (bellH * 0.3) 0 0 1, .stroke,
           .setStrokeStyle s.colors.textMuted, .setLineWidth 0.6,
           .setLineCap "round", .setGlobalAlpha (alpha * 0.45)]
        let tentSpacing := bellW * 2 / ((e.tentacleCount : ℚ) + 1)
        let tent := (List.range e.tentacleCount).foldl
          (fun (tacc : List CanvasOp × ℕ) (t : ℕ) =>
            let tPhase := e.tentaclePhases.getD t 0
            let tx := x - bellW + tentSpacing * ((t : ℚ) + 1)
            let rt := rand h 0.8 1.4 tacc.2
            let tentLen := sz * rt.1
            let sway := h.sinQ (tPhase + s.time * 1.5) * sz * 0.15 + s.wind * 1.5
            (tacc.1 ++
             [CanvasOp.beginPath, .moveTo tx e.y,
              .quadraticCurveTo (tx + sway) (e.y + tentLen * 0.5) (tx + sway * 0.6)
                (e.y + tentLen),
              .stroke], rt.2))
          (([] : List CanvasOp), acc.2)
        (acc.1 ++ head ++ tent.1, tent.2))
    (([] : List CanvasOp), i)
  (r.1 ++ [.setGlobalAlpha 1], r.2)

def drawBalloons (h : Host) (s : EngineState) : List CanvasOp :=
  (s.balloons.map fun e =>
    let x := sx s.worldOffset e.worldX e.parallax
    if x < -30 ∨ s.width + 30 < x then []
    else
      let sway := h.sinQ e.swayPhase * 3 + s.wind * 2
      let sz := e.size
      let alpha := entityAlpha x e.parallax s.width 0.6
      let basketY := e.y + sz
      [CanvasOp.setFillStyle s.colors.primary, .setGlobalAlpha alpha,
       .beginPath, .ellipse (x + sway) e.y (sz * 0.6) (sz * 0.75) 0 0 2, .fill,
       .setStrokeStyle s.colors.textMuted, .setLineWidth 0.8,
       .setGlobalAlpha (alpha * 0.83),
       .beginPath,
       .moveTo (x + sway - sz * 0.3) (e.y + sz * 0.6), .lineTo (x + sway - 3) basketY,
       .moveTo (x + sway + sz * 0.3) (e.y + sz * 0.6), .lineTo (x + sway + 3) basketY,
       .stroke,
       .setStrokeStyle s.colors.textMuted, .setLineWidth 1.2,
       .beginPath, .rect (x + sway - 4) basketY 8 5, .stroke]).flatten ++
  [.setGlobalAlpha 1]

def drawMountains (s : EngineState) : List CanvasOp :=
  (s.mountains.map fun e =>
    let x := sx s.worldOffset e.worldX e.parallax
    if x + e.rightWidth < -10 ∨ s.width + 10 < x - e.leftWidth then []
    else
      let gY := e.y
      let peakX := x
      let peakY := gY - e.peakHeight
      let leftBaseX := x - e.leftWidth
      let rightBaseX := x + e.rightWidth
      let ctrlLeftX := leftBaseX + e.leftWidth * 0.5 + e.ctrlLeftDx
      let ctrlLeftY := gY - e.ctrlLeftDy
      let ctrlRightX := rightBaseX - e.rightWidth * 0.5 + e.ctrlRightDx
      let ctrlRightY := gY - e.ctrlRightDy
      let alpha := entityAlpha x e.parallax s.width 1
      [CanvasOp.setGlobalAlpha alpha,
       .beginPath, .moveTo leftBaseX gY,
       .quadraticCurveTo ctrlLeftX ctrlLeftY peakX peakY,
       .quadraticCurveTo ctrlRightX ctrlRightY rightBaseX gY,
       .closePath,
       .setFillStyle s.colors.border, .fill,
       .setStrokeStyle s.colors.textMuted, .setLineWidth 1, .stroke]).flatten ++
  [.setGlobalAlpha 1]

def drawGroundLine (s : EngineState) : List CanvasOp :=
  [.setStrokeStyle s.colors.border, .setLineWidth 1, .setGlobalAlpha 1,
   .beginPath, .moveTo 0 s.baseGroundY, .lineTo s.width s.baseGroundY, .stroke]

def drawGrassTufts (h : Host) (s : EngineState) : List CanvasOp :=
  [.setStrokeStyle s.colors.textMuted, .setLineWidth 0.8, .setLineCap "round"] ++
  (s.grassTufts.map fun e =>
    let x := sx s.worldOffset e.worldX e.parallax
    if x < -15 ∨ s.width + 15 < x then []
    else
      let alpha := entityAlpha x e.parallax s.width 0.45
      [CanvasOp.setGlobalAlpha alpha, .beginPath] ++
      ((List.range e.bladeCount).map fun (j : ℕ) =>
        let angle := e.bladeAngles.getD j 0 + s.wind * 0.3
        let bx := x + ((j : ℚ) - ((e.bladeCount : ℚ) - 1) * 0.5) * 3
        [CanvasOp.moveTo bx e.y,
         .lineTo (bx + h.sinQ angle * e.bladeHeight)
           (e.y - h.cosQ angle * e.bladeHeight)]).flatten ++
      [.stroke]).flatten ++
  [.setGlobalAlpha 1]

def drawPebbles (s : EngineState) : List CanvasOp :=
  [.setFillStyle s.colors.textMuted] ++
  (s.pebbles.map fun e =>
    let x := sx s.worldOffset e.worldX e.parallax
    if x < -5 ∨ s.width + 5 < x then []
    else
      let alpha := entityAlpha x e.parallax s.width 0.4
      [CanvasOp.setGlobalAlpha alpha, .beginPath,
       .arc x e.y e.radius 0 2, .fill]).flatten ++
  [.setGlobalAlpha 1]

def drawBirds (h : Host) (s : EngineState) : List CanvasOp :=
  (s.birds.map fun e =>
    let x := sx s.worldOffset e.worldX e.parallax + e.formationOffsetX
    let y := e.y + e.formationOffsetY
    if x < -20 ∨ s.width + 20 < x then []
    else
      let sinPhase := h.sinQ e.flapPhase
      let flap := signQ sinPhase * h.rpowQ |sinPhase| 0.7 * 0.6
      let ws := e.wingspan
      let bodyRise := max 0 (-sinPhase) * 1.5
      let alpha := entityAlpha x e.parallax s.width 0.7
      [CanvasOp.setStrokeStyle s.colors.textMuted,
       .setLineWidth (0.8 + ws * 0.06), .setLineCap "round",
       .setGlobalAlpha alpha,
       .beginPath,
       .moveTo (x - ws) (y - bodyRise - flap * ws * 0.5),
       .lineTo x (y - bodyRise),
       .lineTo (x + ws) (y - bodyRise - flap * ws * 0.5),
       .stroke]).flatten ++
  [.setGlobalAlpha 1]

def drawUfos (h : Host) (s : EngineState) : List CanvasOp :=
  (s.ufos.map fun e =>
    let x := sx s.worldOffset e.worldX e.parallax
    if x < -40 ∨ s.width + 40 < x then []
    else
      let sz := e.size
      let hoverY := e.y + h.sinQ e.hoverPhase * 4 * sz
      let alpha := entityAlpha x e.parallax s.width 1
      [CanvasOp.setGlobalAlpha alpha, .setFillStyle s.colors.primary,
       .beginPath, .ellipse x hoverY (16 * sz) (6 * sz) 0 0 2, .fill,
       .beginPath, .arc x (hoverY - 5 * sz) (8 * sz) 1 0, .fill] ++
      (if e.hasTractorBeam then
        [CanvasOp.setGlobalAlpha (alpha * 0.15),
         .beginPath,
         .moveTo (x - 10 * sz) (hoverY + 6 * sz),
         .lineTo (x + 10 * sz) (hoverY + 6 * sz),
         .lineTo (x + 22 * sz) s.baseGroundY,
         .lineTo (x - 22 * sz) s.baseGroundY,
         .closePath, .fill]
      else [])).flatten ++
  [.setGlobalAlpha 1]

/-- `renderStickman(pose)`: one circle stroke for the head, one batched
path for spine, arms and legs. -/
def renderStickman (colors : CachedColors) (p : StickmanPose) : List CanvasOp :=
  [.setStrokeStyle colors.text, .setFillStyle colors.text,
   .setLineWidth 1.8, .setLineCap "round", .setLineJoin "round",
   .setGlobalAlpha 1,
   .beginPath, .arc p.headX p.headY HEAD_RADIUS 0 2, .stroke,
   .beginPath,
   .moveTo p.neckX p.neckY, .lineTo p.hipX p.hipY,
   .moveTo p.shoulderX p.shoulderY,
   .lineTo p.leftElbowX p.leftElbowY, .lineTo p.leftHandX p.leftHandY,
   .moveTo p.shoulderX p.shoulderY,
   .lineTo p.rightElbowX p.rightElbowY, .lineTo p.rightHandX p.rightHandY,
   .moveTo p.hipX p.hipY,
   .lineTo p.leftKneeX p.leftKneeY, .lineTo p.leftFootX p.leftFootY,
   .moveTo p.hipX p.hipY,
   .lineTo p.rightKneeX p.rightKneeY, .lineTo p.rightFootX p.rightFootY,
   .stroke]

def drawStickman (h : Host) (s : EngineState) : List CanvasOp :=
  renderStickman s.colors (computeStickmanPose h s)

/-- `draw()`: full-frame clear then all layers back to front.  It reads but
never writes the engine state; only the jellyfish layer consumes
randomness, so the command trace is returned with the advanced stream
index. -/
def draw (h : Host) (s : EngineState) (i : ℕ) : List CanvasOp × ℕ :=
  let jelly := drawJellyfishOps h s i
  ([CanvasOp.setFillStyle s.colors.bg, .fillRect 0 0 s.width s.height] ++
   drawStars h s ++ drawMeteors h s ++ drawClouds s ++ drawWhales h s ++
   jelly.1 ++ drawBalloons h s ++ drawMountains s ++ drawGroundLine s ++
   drawPebbles s ++ drawGrassTufts h s ++ drawBirds h s ++ drawUfos h s ++
   drawStickman h s, jelly.2)

/-- Two `draw()` calls in succession with no intervening `update()`: the
second call reads the random stream where the first one left off. -/
def drawTwice (h : Host) (s : EngineState) (i : ℕ) : List CanvasOp × List CanvasOp :=
  let d1 := draw h s i
  let d2 := draw h s d1.2
  (d1.1, d2.1)

/-! ## Driver-visible call sequences -/

/-- One external call into the engine's public API. -/
inductive Call where
  | update (dt : ℚ)
  | draw
  | resize (w hgt : ℚ)
  | onThemeChange (colors : CachedColors)
  | setReducedMotion (enabled : Bool)

/-- Apply one public-API call to the engine state (with the random-stream
index threaded through; `draw` mutates nothing but consumes randomness). -/
def applyCall (h : Host) (si : EngineState × ℕ) : Call → EngineState × ℕ
  | .update dt => update h dt si.1 si.2
  | .draw => (si.1, (draw h si.1 si.2).2)
  | .resize w hgt => (resize w hgt si.1, si.2)
  | .onThemeChange colors => (onThemeChange colors si.1, si.2)
  | .setReducedMotion enabled => setReducedMotion h enabled si.1 si.2

/-- Run a sequence of public-API calls. -/
def runCalls (h : Host) (si : EngineState × ℕ) (cs : List Call) : EngineState × ℕ :=
  cs.foldl (applyCall h) si

/-! ## Real-valued transcriptions for the analytic claims

The walk-cycle knee placement and the wind oscillation are claims about
the mathematical content of their formulas, so they are transcribed over
`ℝ` with genuine `Real.sqrt` / `Real.sin`. -/

/-- Knee placement from the walk cycle (the `lDx`/`lDy`/`lDist`/`lHalf`/
`lBend`/`lInv` block of `computeStickmanPose`), as a function of the hip
and foot positions.  Over `ℝ`, `Real.sqrt` of a negative argument is `0`,
which coincides with the source's `lHalf < UPPER_LEG` guard (whose `else`
branch is `0`, including at the boundary `lHalf = UPPER_LEG`). -/
noncomputable def kneePoint (hx hy fx fy : ℝ) : ℝ × ℝ :=
  let dx := fx - hx
  let dy := fy - hy
  let dist := Real.sqrt (dx * dx + dy * dy)
  let bend := Real.sqrt ((UPPER_LEG : ℝ) ^ 2 - (dist * 0.5) ^ 2)
  let inv := if 0.1 < dist then bend / dist else 0
  ((hx + fx) * 0.5 + dy * inv, (hy + fy) * 0.5 - dx * inv)

/-- Euclidean distance between two points in the plane. -/
noncomputable def dist2D (x1 y1 x2 y2 : ℝ) : ℝ :=
  Real.sqrt ((x2 - x1) ^ 2 + (y2 - y1) ^ 2)

/-- The wind formula from `update()`:
`wind = sin(time * 0.2) * 0.3 + sin(time * 0.07) * 0.2`, parameterized by
the sine so the definition stays executable; theorems instantiate `f` with
`Real.sin`. -/
def windFormula (f : ℝ → ℝ) (t : ℝ) : ℝ :=
  f (t * 0.2) * 0.3 + f (t * 0.07) * 0.2

/-! ## Trace-analysis helpers -/

def isFill : CanvasOp → Bool
  | .fill => true
  | _ => false

/-- Number of `ctx.fill()` calls in a command trace. -/
def countFills (ops : List CanvasOp) : ℕ := (ops.filter isFill).length

/-- Number of stars that pass `drawStars`'s visibility check
(`x < -10 || x > width + 10` skips the star). -/
def visibleStarCount (s : EngineState) : ℕ :=
  (s.stars.filter fun e =>
    decide (¬ (sx s.worldOffset e.worldX e.parallax < -10 ∨
               s.width + 10 < sx s.worldOffset e.worldX e.parallax))).length

/-- Capacity invariant: every pool's size is at most its type's capacity
constant for the engine's configuration. -/
def Bounded (s : EngineState) : Prop :=
  ∀ t, poolCount s t ≤ capsFor s.isMobile t

/-! ## Concrete test fixtures

Concrete hosts, colors and states used as inputs of witnesses and
counterexamples. -/

def colors0 : CachedColors :=
  { bg := "b", text := "t", textMuted := "m", primary := "p",
    border := "r", surface := "s" }

/-- A host whose float routines all return 0 and whose random stream is
constantly 0. -/
def host0 : Host :=
  { sinQ := fun _ => 0, cosQ := fun _ => 0, sqrtQ := fun _ => 0,
    rpowQ := fun _ _ => 0, piQ := 0, random := fun _ => 0 }

/-- A host like `host0` whose random stream returns 0 first and 1/2 from
then on — two successive reads differ. -/
def hostJitter : Host :=
  { host0 with random := fun n => if n = 0 then 0 else 1/2 }

/-- A minimal engine state: empty pools, zeroed clocks, all spawners at
threshold 0 with interval [50, 100]. -/
def emptyState (w hgt : ℚ) : EngineState :=
  { isMobile := false, reducedMotion := false, width := w, height := hgt,
    baseGroundY := hgt * GROUND_Y_RATIO, worldOffset := 0, walkPhase := 0,
    time := 0, wind := 0, colors := colors0,
    stars := [], clouds := [], mountains := [], birds := [], ufos := [],
    meteors := [], balloons := [], whales := [], jellyfish := [],
    grassTufts := [], pebbles := [],
    spawners := fun _ => { nextSpawnAt := 0, minInterval := 50, maxInterval := 100 } }

/-- A jellyfish with one tentacle, on screen at world x = 50. -/
def jelly0 : JellyfishEntity :=
  { worldX := 50, y := 20, parallax := 0.4, size := 6, pulsePhase := 0,
    driftSpeed := 2, tentacleCount := 1, tentaclePhases := [0] }

/-- An on-screen star at a given world x. -/
def starAt (x : ℚ) : StarEntity :=
  { worldX := x, y := 10, parallax := 0.1, size := 1, twinkleOffset := 0,
    twinkleSpeed := 1 }

/-! # Claims -/

/-- C1: For every worldX, screenX, parallax value and camera offset, the
engine's screen projection is `screenX = worldX − cameraOffset × parallax`
(`sx`) and its spawn-time inverse is
`worldX = screenX + cameraOffset × parallax` (`toWorldX`); composing them
at a fixed camera offset is the identity in both directions, so an entity
spawned via the inverse at a desired screen position projects back to
exactly that screen position. -/
theorem c1_projection_inverse_roundtrip
    (worldX screenX parallax worldOffset : ℚ) :
    sx worldOffset worldX parallax = worldX - worldOffset * parallax ∧
    toWorldX worldOffset screenX parallax = screenX + worldOffset * parallax ∧
    sx worldOffset (toWorldX worldOffset screenX parallax) parallax = screenX ∧
    toWorldX worldOffset (sx worldOffset worldX parallax) parallax = worldX := by
  refine ⟨rfl, rfl, ?_, ?_⟩ <;> (unfold sx toWorldX; ring)

/-- C10: `resize(w, h)` changes only the stored viewport width, height and
the derived ground line `baseGroundY = h × GROUND_Y_RATIO`; the clock,
camera offset, walk phase, wind, spawner table, cached colors, flags and
every pooled entity (in particular the `y` anchor that mountains, grass
tufts and pebbles captured from the ground line at creation) are left
unchanged. -/
theorem c10_resize_touches_only_viewport (s : EngineState) (w hgt : ℚ) :
    (resize w hgt s).width = w ∧
    (resize w hgt s).height = hgt ∧
    (resize w hgt s).baseGroundY = hgt * GROUND_Y_RATIO ∧
    (resize w hgt s).isMobile = s.isMobile ∧
    (resize w hgt s).reducedMotion = s.reducedMotion ∧
    (resize w hgt s).time = s.time ∧
    (resize w hgt s).worldOffset = s.worldOffset ∧
    (resize w hgt s).walkPhase = s.walkPhase ∧
    (resize w hgt s).wind = s.wind ∧
    (resize w hgt s).colors = s.colors ∧
    (resize w hgt s).spawners = s.spawners ∧
    (resize w hgt s).stars = s.stars ∧
    (resize w hgt s).clouds = s.clouds ∧
    (resize w hgt s).mountains = s.mountains ∧
    (resize w hgt s).birds = s.birds ∧
    (resize w hgt s).ufos = s.ufos ∧
    (resize w hgt s).meteors = s.meteors ∧
    (resize w hgt s).balloons = s.balloons ∧
    (resize w hgt s).whales = s.whales ∧
    (resize w hgt s).jellyfish = s.jellyfish ∧
    (resize w hgt s).grassTufts = s.grassTufts ∧
    (resize w hgt s).pebbles = s.pebbles :=
  ⟨rfl, rfl, rfl, rfl, rfl, rfl, rfl, rfl, rfl, rfl, rfl,
   rfl, rfl, rfl, rfl, rfl, rfl, rfl, rfl, rfl, rfl, rfl⟩

/-! ### Scene seeding frame lemmas -/

theorem seedSkyEntities_scalars (h : Host) (s : EngineState) (i : ℕ) :
    (seedSkyEntities h s i).1.isMobile = s.isMobile ∧
    (seedSkyEntities h s i).1.reducedMotion = s.reducedMotion ∧
    (seedSkyEntities h s i).1.worldOffset = s.worldOffset ∧
    (seedSkyEntities h s i).1.walkPhase = s.walkPhase ∧
    (seedSkyEntities h s i).1.width = s.width ∧
    (seedSkyEntities h s i).1.height = s.height ∧
    (seedSkyEntities h s i).1.baseGroundY = s.baseGroundY ∧
    (seedSkyEntities h s i).1.time = s.time ∧
    (seedSkyEntities h s i).1.wind = s.wind :=
  ⟨rfl, rfl, rfl, rfl, rfl, rfl, rfl, rfl, rfl⟩

theorem seedBirds_scalars (h : Host) (s : EngineState) (i : ℕ) :
    (seedBirds h s i).1.isMobile = s.isMobile ∧
    (seedBirds h s i).1.reducedMotion = s.reducedMotion ∧
    (seedBirds h s i).1.worldOffset = s.worldOffset ∧
    (seedBirds h s i).1.walkPhase = s.walkPhase ∧
    (seedBirds h s i).1.width = s.width ∧
    (seedBirds h s i).1.height = s.height ∧
    (seedBirds h s i).1.baseGroundY = s.baseGroundY ∧
    (seedBirds h s i).1.time = s.time ∧
    (seedBirds h s i).1.wind = s.wind := by
  unfold seedBirds
  dsimp only
  refine ⟨?_, ?_, ?_, ?_, ?_, ?_, ?_, ?_, ?_⟩ <;> (split <;> rfl)

theorem seedGroundEntities_scalars (h : Host) (s : EngineState) (i : ℕ) :
    (seedGroundEntities h s i).1.isMobile = s.isMobile ∧
    (seedGroundEntities h s i).1.reducedMotion = s.reducedMotion ∧
    (seedGroundEntities h s i).1.worldOffset = s.worldOffset ∧
    (seedGroundEntities h s i).1.walkPhase = s.walkPhase ∧
    (seedGroundEntities h s i).1.width = s.width ∧
    (seedGroundEntities h s i).1.height = s.height ∧
    (seedGroundEntities h s i).1.baseGroundY = s.baseGroundY ∧
    (seedGroundEntities h s i).1.time = s.time ∧
    (seedGroundEntities h s i).1.wind = s.wind :=
  ⟨rfl, rfl, rfl, rfl, rfl, rfl, rfl, rfl, rfl⟩

theorem populate_scalars (h : Host) (s : EngineState) (i : ℕ) :
    (populateInitialScene h s i).1.isMobile = s.isMobile ∧
    (populateInitialScene h s i).1.reducedMotion = s.reducedMotion ∧
    (populateInitialScene h s i).1.worldOffset = s.worldOffset ∧
    (populateInitialScene h s i).1.walkPhase = s.walkPhase ∧
    (populateInitialScene h s i).1.width = s.width ∧
    (populateInitialScene h s i).1.height = s.height ∧
    (populateInitialScene h s i).1.baseGroundY = s.baseGroundY ∧
    (populateInitialScene h s i).1.time = s.time ∧
    (populateInitialScene h s i).1.wind = s.wind := by
  unfold populateInitialScene
  have h1 := seedSkyEntities_scalars h (clearAllPools s) i
  have h2 := seedBirds_scalars h (seedSkyEntities h (clearAllPools s) i).1
    (seedSkyEntities h (clearAllPools s) i).2
  have h3 := seedGroundEntities_scalars h
    (seedBirds h (seedSkyEntities h (clearAllPools s) i).1
      (seedSkyEntities h (clearAllPools s) i).2).1
    (seedBirds h (seedSkyEntities h (clearAllPools s) i).1
      (seedSkyEntities h (clearAllPools s) i).2).2
  refine ⟨?_, ?_, ?_, ?_, ?_, ?_, ?_, ?_, ?_⟩ <;>
    simp only [h3.1, h3.2.1, h3.2.2.1, h3.2.2.2.1, h3.2.2.2.2.1, h3.2.2.2.2.2.1,
      h3.2.2.2.2.2.2.1, h3.2.2.2.2.2.2.2.1, h3.2.2.2.2.2.2.2.2,
      h2.1, h2.2.1, h2.2.2.1, h2.2.2.2.1, h2.2.2.2.2.1, h2.2.2.2.2.2.1,
      h2.2.2.2.2.2.2.1, h2.2.2.2.2.2.2.2.1, h2.2.2.2.2.2.2.2.2,
      h1.1, h1.2.1, h1.2.2.1, h1.2.2.2.1, h1.2.2.2.2.1, h1.2.2.2.2.2.1,
      h1.2.2.2.2.2.2.1, h1.2.2.2.2.2.2.2.1, h1.2.2.2.2.2.2.2.2] <;> rfl

/-! ### Reduced-motion no-op lemmas -/

theorem update_reduced_id (h : Host) (dt : ℚ) (s : EngineState) (i : ℕ)
    (hrm : s.reducedMotion = true) : update h dt s i = (s, i) := by
  unfold update
  rw [hrm]
  simp

theorem runCalls_updates_reduced (h : Host) (s : EngineState) (i : ℕ) (dts : List ℚ)
    (hrm : s.reducedMotion = true) :
    runCalls h (s, i) (dts.map Call.update) = (s, i) := by
  induction dts with
  | nil => rfl
  | cons d rest ih =>
    have hstep : applyCall h (s, i) (Call.update d) = (s, i) := by
      simp [applyCall, update_reduced_id h d s i hrm]
    calc runCalls h (s, i) ((d :: rest).map Call.update)
        = runCalls h (applyCall h (s, i) (Call.update d)) (rest.map Call.update) := rfl
      _ = runCalls h (s, i) (rest.map Call.update) := by rw [hstep]
      _ = (s, i) := ih

/-- C6: After `setReducedMotion(true)` the camera offset and walk phase
are reset to 0, and any subsequent sequence of `update(dt)` calls (any
`dt`, e.g. `update(1.0)`) is a no-op leaving the whole state — camera,
walk phase, and all pools — untouched, while `computeStickmanPose` (used
by `draw()`, which is total) returns the static standing pose. -/
theorem c6_reduced_motion_freeze (h : Host) (s : EngineState) (i : ℕ) (dts : List ℚ) :
    (setReducedMotion h true s i).1.worldOffset = 0 ∧
    (setReducedMotion h true s i).1.walkPhase = 0 ∧
    runCalls h (setReducedMotion h true s i) (dts.map Call.update) =
      setReducedMotion h true s i ∧
    computeStickmanPose h (setReducedMotion h true s i).1 =
      staticPose (setReducedMotion h true s i).1.width
        (setReducedMotion h true s i).1.baseGroundY := by
  have hdef : setReducedMotion h true s i =
      populateInitialScene h
        { s with reducedMotion := true, worldOffset := 0, walkPhase := 0,
                 time := 0, wind := 0 } i := rfl
  have hp := populate_scalars h
    { s with reducedMotion := true, worldOffset := 0, walkPhase := 0,
             time := 0, wind := 0 } i
  have hrm : (setReducedMotion h true s i).1.reducedMotion = true := by
    rw [hdef]; exact hp.2.1
  have hwo : (setReducedMotion h true s i).1.worldOffset = 0 := by
    rw [hdef]; exact hp.2.2.1
  have hwp : (setReducedMotion h true s i).1.walkPhase = 0 := by
    rw [hdef]; exact hp.2.2.2.1
  refine ⟨hwo, hwp, ?_, ?_⟩
  · have := runCalls_updates_reduced h (setReducedMotion h true s i).1
      (setReducedMotion h true s i).2 dts hrm
    simpa using this
  · unfold computeStickmanPose
    rw [hrm]
    simp

/-! ### Generic fold bounds -/

/-- A fold whose every step grows the accumulated list by at most one
element grows it by at most the length of the folded list. -/
theorem foldl_length_le {α β : Type _} (f : List β × ℕ → α → List β × ℕ) (l : List α)
    (hf : ∀ acc x, ((f acc x).1).length ≤ acc.1.length + 1) :
    ∀ acc : List β × ℕ, ((l.foldl f acc).1).length ≤ acc.1.length + l.length := by
  induction l with
  | nil => intro acc; simp
  | cons x xs ih =>
    intro acc
    calc ((xs.foldl f (f acc x)).1).length ≤ ((f acc x).1).length + xs.length := ih _
      _ ≤ acc.1.length + 1 + xs.length := by have := hf acc x; omega
      _ = acc.1.length + (x :: xs).length := by simp; omega

/-- A fold that skips its body once `poolLen + length` has reached `cap`
and otherwise grows by at most one keeps `poolLen + length ≤ cap`. -/
theorem foldl_capped {α β : Type _} (cap poolLen : ℕ) (f : List β × ℕ → α → List β × ℕ)
    (l : List α)
    (hstop : ∀ acc x, cap ≤ poolLen + acc.1.length → f acc x = acc)
    (hgrow : ∀ acc x, ((f acc x).1).length ≤ acc.1.length + 1) :
    ∀ acc : List β × ℕ, poolLen + acc.1.length ≤ cap →
      poolLen + ((l.foldl f acc).1).length ≤ cap := by
  induction l with
  | nil => intro acc hacc; simpa using hacc
  | cons x xs ih =>
    intro acc hacc
    by_cases hc : cap ≤ poolLen + acc.1.length
    · have heq : f acc x = acc := hstop acc x hc
      show poolLen + ((xs.foldl f (f acc x)).1).length ≤ cap
      rw [heq]
      exact ih acc hacc
    · have hlt : poolLen + acc.1.length < cap := by omega
      have hnext : poolLen + ((f acc x).1).length ≤ cap := by
        have := hgrow acc x; omega
      exact ih (f acc x) hnext

/-! ### Mountain cluster capacity -/

theorem insertPeakDesc_length (p : MountainEntity) (l : List MountainEntity) :
    (insertPeakDesc p l).length = l.length + 1 := by
  induction l with
  | nil => rfl
  | cons q rest ih =>
    unfold insertPeakDesc
    split
    · simp
    · simp [ih]

theorem sortPeaksDesc_length (l : List MountainEntity) :
    (sortPeaksDesc l).length = l.length := by
  induction l with
  | nil => rfl
  | cons p rest ih => simp [sortPeaksDesc, insertPeakDesc_length, ih]

theorem clusterStep_stop (h : Host) (cap poolLen : ℕ) (gY center : ℚ) (cnt : ℤ)
    (acc : List MountainEntity × ℕ) (k : ℕ) (hc : cap ≤ poolLen + acc.1.length) :
    clusterStep h cap poolLen gY center cnt acc k = acc := by
  unfold clusterStep
  rw [if_pos hc]

theorem clusterStep_grow (h : Host) (cap poolLen : ℕ) (gY center : ℚ) (cnt : ℤ)
    (acc : List MountainEntity × ℕ) (k : ℕ) :
    ((clusterStep h cap poolLen gY center cnt acc k).1).length ≤ acc.1.length + 1 := by
  unfold clusterStep
  dsimp only
  split
  · omega
  · simp

theorem spawnMountainCluster_le (h : Host) (cap : ℕ) (gY center : ℚ)
    (pool : List MountainEntity) (i : ℕ) (hp : pool.length ≤ cap) :
    ((spawnMountainCluster h cap gY center pool i).1).length ≤ cap := by
  unfold spawnMountainCluster
  dsimp only
  rw [List.length_append, sortPeaksDesc_length]
  have := foldl_capped cap pool.length
    (clusterStep h cap pool.length gY center (randInt h 3 5 i).1)
    (List.range (randInt h 3 5 i).1.toNat)
    (fun acc x hc => clusterStep_stop h cap pool.length gY center _ acc x hc)
    (fun acc x => clusterStep_grow h cap pool.length gY center _ acc x)
    ([], (randInt h 3 5 i).2) (by simpa using hp)
  simpa using this

/-! ### Bird group capacity -/

theorem birdFollowers_le (h : Host) (cap : ℕ) (height : ℚ) (leader : BirdEntity)
    (wX : ℚ) :
    ∀ (fuel k : ℕ) (pool : List BirdEntity) (i : ℕ), pool.length ≤ cap →
      ((birdFollowers h cap height leader wX fuel k pool i).1).length ≤ cap := by
  intro fuel
  induction fuel with
  | zero => intro k pool i hp; exact hp
  | succ n ih =>
    intro k pool i hp
    unfold birdFollowers
    split
    · exact hp
    · rename_i hc
      have hlt : pool.length < cap := by omega
      exact ih (k + 1) _ _ (by simpa using hlt)

theorem spawnBirdGroup_le (h : Host) (cap : ℕ) (height worldOffset screenX : ℚ)
    (pool : List BirdEntity) (i : ℕ) (hp : pool.length < cap) :
    ((spawnBirdGroup h cap height worldOffset screenX pool i).1).length ≤ cap := by
  unfold spawnBirdGroup
  dsimp only
  apply birdFollowers_le
  simpa using hp

/-! ### Spawn and tick preserve the capacity invariant -/

theorem spawnEntity_bounded (h : Host) (t : SpawnType) (xq : ℚ) (s : EngineState)
    (i : ℕ) (hb : Bounded s) (hlt : poolCount s t < capsFor s.isMobile t) :
    Bounded (spawnEntity h t xq s i).1 := by
  cases t
  case mountain =>
    intro t'
    have hbt := hb t'
    cases t' <;>
      (simp only [poolCount] at hbt
       simp only [spawnEntity, poolCount]
       first
         | exact spawnMountainCluster_le _ _ _ _ _ _ (le_of_lt hlt)
         | exact hbt)
  case bird =>
    intro t'
    have hbt := hb t'
    cases t' <;>
      (simp only [poolCount] at hbt
       simp only [spawnEntity, poolCount]
       first
         | exact spawnBirdGroup_le _ _ _ _ _ _ _ hlt
         | exact hbt)
  all_goals
    intro t'
    have hbt := hb t'
    cases t' <;>
      (simp only [poolCount] at hbt
       simp only [spawnEntity, poolCount, List.length_append, List.length_cons,
         List.length_nil]
       first
         | exact hbt
         | (have h2 := hlt
            simp only [poolCount] at h2
            omega))

theorem spawnEntity_isMobile (h : Host) (t : SpawnType) (xq : ℚ) (s : EngineState)
    (i : ℕ) : (spawnEntity h t xq s i).1.isMobile = s.isMobile := by
  cases t <;> rfl

theorem trySpawn_bounded (h : Host) (t : SpawnType) (s : EngineState) (i : ℕ)
    (hb : Bounded s) : Bounded (trySpawn h t s i).1 := by
  unfold trySpawn
  dsimp only
  split
  · exact hb
  · split
    · intro t'; exact hb t'
    · rename_i hcap
      have hlt : poolCount s t < capsFor s.isMobile t := by omega
      have hse := spawnEntity_bounded h t (s.width + (rand h 20 80 i).1) s
        (rand h 20 80 i).2 hb hlt
      intro t'; exact hse t'

theorem trySpawn_isMobile (h : Host) (t : SpawnType) (s : EngineState) (i : ℕ) :
    (trySpawn h t s i).1.isMobile = s.isMobile := by
  unfold trySpawn
  dsimp only
  split
  · rfl
  · split
    · rfl
    · exact spawnEntity_isMobile h t _ s _

theorem foldl_trySpawn_bounded (h : Host) (l : List SpawnType) :
    ∀ si : EngineState × ℕ, Bounded si.1 →
      Bounded (l.foldl (fun acc t => trySpawn h t acc.1 acc.2) si).1 := by
  induction l with
  | nil => intro si hb; exact hb
  | cons t ts ih => intro si hb; exact ih _ (trySpawn_bounded h t si.1 si.2 hb)

theorem foldl_trySpawn_isMobile (h : Host) (l : List SpawnType) :
    ∀ si : EngineState × ℕ,
      (l.foldl (fun acc t => trySpawn h t acc.1 acc.2) si).1.isMobile = si.1.isMobile := by
  induction l with
  | nil => intro si; rfl
  | cons t ts ih =>
    intro si
    rw [show (t :: ts).foldl (fun acc t => trySpawn h t acc.1 acc.2) si
        = ts.foldl (fun acc t => trySpawn h t acc.1 acc.2) (trySpawn h t si.1 si.2) from rfl,
      ih]
    exact trySpawn_isMobile h t si.1 si.2

theorem cullAllPools_le (s : EngineState) (t : SpawnType) :
    poolCount (cullAllPools s) t ≤ poolCount s t := by
  cases t <;>
    (simp only [cullAllPools, poolCount]; exact List.length_filter_le _ _)

theorem cullAllPools_bounded (s : EngineState) (hb : Bounded s) :
    Bounded (cullAllPools s) := by
  intro t
  show poolCount (cullAllPools s) t ≤ capsFor s.isMobile t
  exact le_trans (cullAllPools_le s t) (hb t)

theorem update_bounded (h : Host) (dt : ℚ) (s : EngineState) (i : ℕ)
    (hb : Bounded s) : Bounded (update h dt s i).1 := by
  unfold update
  dsimp only
  split
  · exact hb
  · apply cullAllPools_bounded
    apply foldl_trySpawn_bounded
    intro t
    have hbt := hb t
    cases t <;>
      (simp only [poolCount] at hbt
       simp only [poolCount, updateBirds, updateUfos, updateMeteors, updateBalloons,
        updateWhales, updateJellyfishPool, updateClouds, List.length_map]
       exact hbt)

theorem update_isMobile (h : Host) (dt : ℚ) (s : EngineState) (i : ℕ) :
    (update h dt s i).1.isMobile = s.isMobile := by
  unfold update
  dsimp only
  split
  · rfl
  · exact foldl_trySpawn_isMobile h SPAWN_TYPES _

/-! ### Seeding establishes the capacity invariant -/

theorem pushRangeLoop_length {β : Type} (step : ℕ → ℕ → β × ℕ) :
    ∀ (n : ℕ) (init : List β × ℕ),
      ((pushRangeLoop step n init).1).length = init.1.length + n := by
  intro n
  induction n with
  | zero => intro init; simp [pushRangeLoop]
  | succ m ih =>
    intro init
    unfold pushRangeLoop at ih ⊢
    rw [List.range_succ, List.foldl_append]
    simp only [List.foldl_cons, List.foldl_nil, List.length_append,
      List.length_cons, List.length_nil, ih init]
    omega

theorem seedSky_pools (h : Host) (s : EngineState) (i : ℕ) :
    (seedSkyEntities h s i).1.stars.length
        ≤ s.stars.length + (if s.isMobile then 14 else 20) ∧
    (seedSkyEntities h s i).1.clouds.length
        ≤ s.clouds.length + (if s.isMobile then 3 else 4) ∧
    (seedSkyEntities h s i).1.balloons.length = s.balloons.length + 1 ∧
    (seedSkyEntities h s i).1.mountains = s.mountains ∧
    (seedSkyEntities h s i).1.birds = s.birds ∧
    (seedSkyEntities h s i).1.ufos = s.ufos ∧
    (seedSkyEntities h s i).1.meteors = s.meteors ∧
    (seedSkyEntities h s i).1.whales = s.whales ∧
    (seedSkyEntities h s i).1.jellyfish = s.jellyfish ∧
    (seedSkyEntities h s i).1.grassTufts = s.grassTufts ∧
    (seedSkyEntities h s i).1.pebbles = s.pebbles := by
  refine ⟨?_, ?_, ?_, rfl, rfl, rfl, rfl, rfl, rfl, rfl, rfl⟩
  · unfold seedSkyEntities
    dsimp only
    rw [pushRangeLoop_length]
  · unfold seedSkyEntities
    dsimp only
    rw [pushRangeLoop_length]
  · unfold seedSkyEntities
    dsimp only
    simp

theorem seedBirds_pools (h : Host) (s : EngineState) (i : ℕ) :
    (seedBirds h s i).1.birds.length ≤ s.birds.length + 3 ∧
    (seedBirds h s i).1.stars = s.stars ∧
    (seedBirds h s i).1.clouds = s.clouds ∧
    (seedBirds h s i).1.mountains = s.mountains ∧
    (seedBirds h s i).1.ufos = s.ufos ∧
    (seedBirds h s i).1.meteors = s.meteors ∧
    (seedBirds h s i).1.balloons = s.balloons ∧
    (seedBirds h s i).1.whales = s.whales ∧
    (seedBirds h s i).1.jellyfish = s.jellyfish ∧
    (seedBirds h s i).1.grassTufts = s.grassTufts ∧
    (seedBirds h s i).1.pebbles = s.pebbles := by
  unfold seedBirds
  dsimp only
  refine ⟨?_, ?_, ?_, ?_, ?_, ?_, ?_, ?_, ?_, ?_, ?_⟩ <;>
    first
      | (split <;> rfl)
      | (split <;> simp)

theorem seedGround_pools (h : Host) (s : EngineState) (i : ℕ)
    (hm : s.mountains.length ≤ capsFor s.isMobile .mountain) :
    (seedGroundEntities h s i).1.mountains.length ≤ capsFor s.isMobile .mountain ∧
    (seedGroundEntities h s i).1.grassTufts.length
        ≤ s.grassTufts.length + (if s.isMobile then 8 else 12) ∧
    (seedGroundEntities h s i).1.pebbles.length
        ≤ s.pebbles.length + (if s.isMobile then 4 else 6) ∧
    (seedGroundEntities h s i).1.stars = s.stars ∧
    (seedGroundEntities h s i).1.clouds = s.clouds ∧
    (seedGroundEntities h s i).1.birds = s.birds ∧
    (seedGroundEntities h s i).1.ufos = s.ufos ∧
    (seedGroundEntities h s i).1.meteors = s.meteors ∧
    (seedGroundEntities h s i).1.balloons = s.balloons ∧
    (seedGroundEntities h s i).1.whales = s.whales ∧
    (seedGroundEntities h s i).1.jellyfish = s.jellyfish := by
  refine ⟨?_, ?_, ?_, rfl, rfl, rfl, rfl, rfl, rfl, rfl, rfl⟩
  · unfold seedGroundEntities
    dsimp only
    exact spawnMountainCluster_le _ _ _ _ _ _
      (spawnMountainCluster_le _ _ _ _ _ _ hm)
  · unfold seedGroundEntities
    dsimp only
    rw [pushRangeLoop_length]
  · unfold seedGroundEntities
    dsimp only
    rw [pushRangeLoop_length]

theorem populate_bounded (h : Host) (s : EngineState) (i : ℕ) :
    Bounded (populateInitialScene h s i).1 := by
  have hsky := seedSky_pools h (clearAllPools s) i
  have hskyIm : (seedSkyEntities h (clearAllPools s) i).1.isMobile = s.isMobile :=
    (seedSkyEntities_scalars h (clearAllPools s) i).1
  have hbirdsIm := (seedBirds_scalars h (seedSkyEntities h (clearAllPools s) i).1
    (seedSkyEntities h (clearAllPools s) i).2).1
  have hbirds := seedBirds_pools h (seedSkyEntities h (clearAllPools s) i).1
    (seedSkyEntities h (clearAllPools s) i).2
  have hgroundIm := (seedGroundEntities_scalars h
    (seedBirds h (seedSkyEntities h (clearAllPools s) i).1
      (seedSkyEntities h (clearAllPools s) i).2).1
    (seedBirds h (seedSkyEntities h (clearAllPools s) i).1
      (seedSkyEntities h (clearAllPools s) i).2).2).1
  have hground := seedGround_pools h
    (seedBirds h (seedSkyEntities h (clearAllPools s) i).1
      (seedSkyEntities h (clearAllPools s) i).2).1
    (seedBirds h (seedSkyEntities h (clearAllPools s) i).1
      (seedSkyEntities h (clearAllPools s) i).2).2
    (by
      rw [hbirds.2.2.2.1, hsky.2.2.2.1]
      show (0 : ℕ) ≤ _
      exact Nat.zero_le _)
  intro t
  show poolCount (populateInitialScene h s i).1 t ≤ _
  unfold populateInitialScene
  dsimp only
  have hIm : (seedBirds h (seedSkyEntities h (clearAllPools s) i).1
      (seedSkyEntities h (clearAllPools s) i).2).1.isMobile = s.isMobile := by
    rw [hbirdsIm, hskyIm]
  cases t
  case star =>
    simp only [poolCount]
    rw [hground.2.2.2.1, hbirds.2.1]
    refine le_trans hsky.1 ?_
    show (0 : ℕ) + _ ≤ _
    rw [show (clearAllPools s).isMobile = s.isMobile from rfl]
    rw [show capsFor (seedGroundEntities _ _ _).1.isMobile SpawnType.star
        = capsFor s.isMobile SpawnType.star from by rw [hgroundIm, hIm]]
    cases s.isMobile <;> simp [capsFor, ENTITY_CAPS, MOBILE_ENTITY_CAPS]
  case cloud =>
    simp only [poolCount]
    rw [hground.2.2.2.2.1, hbirds.2.2.1]
    refine le_trans hsky.2.1 ?_
    show (0 : ℕ) + _ ≤ _
    rw [show (clearAllPools s).isMobile = s.isMobile from rfl]
    rw [show capsFor (seedGroundEntities _ _ _).1.isMobile SpawnType.cloud
        = capsFor s.isMobile SpawnType.cloud from by rw [hgroundIm, hIm]]
    cases s.isMobile <;> simp [capsFor, ENTITY_CAPS, MOBILE_ENTITY_CAPS]
  case mountain =>
    simp only [poolCount]
    rw [show capsFor (seedGroundEntities _ _ _).1.isMobile SpawnType.mountain
        = capsFor s.isMobile SpawnType.mountain from by rw [hgroundIm, hIm]]
    refine le_trans hground.1 ?_
    rw [hIm]
  case bird =>
    simp only [poolCount]
    rw [hground.2.2.2.2.2.1]
    refine le_trans hbirds.1 ?_
    rw [hsky.2.2.2.2.1]
    show (0 : ℕ) + 3 ≤ _
    rw [show capsFor (seedGroundEntities _ _ _).1.isMobile SpawnType.bird
        = capsFor s.isMobile SpawnType.bird from by rw [hgroundIm, hIm]]
    cases s.isMobile <;> simp [capsFor, ENTITY_CAPS, MOBILE_ENTITY_CAPS]
  case ufo =>
    simp only [poolCount]
    rw [hground.2.2.2.2.2.2.1, hbirds.2.2.2.2.1, hsky.2.2.2.2.2.1]
    exact Nat.zero_le _
  case meteor =>
    simp only [poolCount]
    rw [hground.2.2.2.2.2.2.2.1, hbirds.2.2.2.2.2.1, hsky.2.2.2.2.2.2.1]
    exact Nat.zero_le _
  case balloon =>
    simp only [poolCount]
    rw [hground.2.2.2.2.2.2.2.2.1, hbirds.2.2.2.2.2.2.1, hsky.2.2.1]
    show (0 : ℕ) + 1 ≤ _
    rw [show capsFor (seedGroundEntities _ _ _).1.isMobile SpawnType.balloon
        = capsFor s.isMobile SpawnType.balloon from by rw [hgroundIm, hIm]]
    cases s.isMobile <;> simp [capsFor, ENTITY_CAPS, MOBILE_ENTITY_CAPS]
  case whale =>
    simp only [poolCount]
    rw [hground.2.2.2.2.2.2.2.2.2.1, hbirds.2.2.2.2.2.2.2.1, hsky.2.2.2.2.2.2.2.1]
    exact Nat.zero_le _
  case jellyfish =>
    simp only [poolCount]
    rw [hground.2.2.2.2.2.2.2.2.2.2, hbirds.2.2.2.2.2.2.2.2.1, hsky.2.2.2.2.2.2.2.2.1]
    exact Nat.zero_le _
  case grassTuft =>
    simp only [poolCount]
    refine le_trans hground.2.1 ?_
    rw [hbirds.2.2.2.2.2.2.2.2.2.1, hsky.2.2.2.2.2.2.2.2.2.1]
    show (0 : ℕ) + _ ≤ _
    rw [show capsFor (seedGroundEntities _ _ _).1.isMobile SpawnType.grassTuft
        = capsFor s.isMobile SpawnType.grassTuft from by rw [hgroundIm, hIm],
      show (seedBirds _ _ _).1.isMobile = s.isMobile from hIm]
    cases s.isMobile <;> simp [capsFor, ENTITY_CAPS, MOBILE_ENTITY_CAPS]
  case pebble =>
    simp only [poolCount]
    refine le_trans hground.2.2.1 ?_
    rw [hbirds.2.2.2.2.2.2.2.2.2.2, hsky.2.2.2.2.2.2.2.2.2.2]
    show (0 : ℕ) + _ ≤ _
    rw [show capsFor (seedGroundEntities _ _ _).1.isMobile SpawnType.pebble
        = capsFor s.isMobile SpawnType.pebble from by rw [hgroundIm, hIm],
      show (seedBirds _ _ _).1.isMobile = s.isMobile from hIm]
    cases s.isMobile <;> simp [capsFor, ENTITY_CAPS, MOBILE_ENTITY_CAPS]

theorem setReducedMotion_bounded (h : Host) (b : Bool) (s : EngineState) (i : ℕ)
    (hb : Bounded s) : Bounded (setReducedMotion h b s i).1 := by
  unfold setReducedMotion
  split
  · exact populate_bounded h _ i
  · intro t; exact hb t

theorem setReducedMotion_isMobile (h : Host) (b : Bool) (s : EngineState) (i : ℕ) :
    (setReducedMotion h b s i).1.isMobile = s.isMobile := by
  unfold setReducedMotion
  split
  · exact (populate_scalars h _ i).1
  · rfl

theorem applyCall_bounded (h : Host) (si : EngineState × ℕ) (c : Call)
    (hb : Bounded si.1) : Bounded (applyCall h si c).1 := by
  cases c with
  | update dt => exact update_bounded h dt si.1 si.2 hb
  | draw => exact hb
  | resize w hgt => intro t; exact hb t
  | onThemeChange colors => intro t; exact hb t
  | setReducedMotion b => exact setReducedMotion_bounded h b si.1 si.2 hb

theorem applyCall_isMobile (h : Host) (si : EngineState × ℕ) (c : Call) :
    (applyCall h si c).1.isMobile = si.1.isMobile := by
  cases c with
  | update dt => exact update_isMobile h dt si.1 si.2
  | draw => rfl
  | resize w hgt => rfl
  | onThemeChange colors => rfl
  | setReducedMotion b => exact setReducedMotion_isMobile h b si.1 si.2

theorem runCalls_bounded (h : Host) (cs : List Call) :
    ∀ si : EngineState × ℕ, Bounded si.1 → Bounded (runCalls h si cs).1 := by
  induction cs with
  | nil => intro si hb; exact hb
  | cons c rest ih => intro si hb; exact ih _ (applyCall_bounded h si c hb)

theorem runCalls_isMobile (h : Host) (cs : List Call) :
    ∀ si : EngineState × ℕ, (runCalls h si cs).1.isMobile = si.1.isMobile := by
  induction cs with
  | nil => intro si; rfl
  | cons c rest ih =>
    intro si
    rw [show runCalls h si (c :: rest) = runCalls h (applyCall h si c) rest from rfl,
      ih, applyCall_isMobile]

/-- C2: In both the desktop and the mobile configuration, for every host
environment, every random stream, and every sequence of public-API calls
(update / draw / resize / onThemeChange / setReducedMotion) run from a
freshly constructed engine — covering initial seeding, 3–5-peak mountain
cluster spawning and 2–3-bird formation spawning — every entity type's
pool size stays at or below that type's capacity constant. -/
theorem c2_pool_caps_invariant (h : Host) (o : EngineOptions) (i : ℕ)
    (cs : List Call) (t : SpawnType) :
    poolCount (runCalls h (createEngine h o i) cs).1 t ≤ capsFor o.isMobile t := by
  have hb : Bounded (createEngine h o i).1 := populate_bounded h _ i
  have hbf := runCalls_bounded h cs _ hb t
  have him : (runCalls h (createEngine h o i) cs).1.isMobile = o.isMobile := by
    rw [runCalls_isMobile]
    exact (populate_scalars h _ i).1
  rwa [him] at hbf

/-! ### Random draw range and spawn count growth -/

theorem rand_mem (h : Host) (lo hi : ℚ) (i : ℕ)
    (h0 : 0 ≤ h.random i) (h1 : h.random i < 1) (hle : lo ≤ hi) :
    lo ≤ (rand h lo hi i).1 ∧ (rand h lo hi i).1 ≤ hi := by
  unfold rand
  dsimp only
  constructor <;> nlinarith

theorem clusterStep_mono (h : Host) (cap poolLen : ℕ) (gY center : ℚ) (cnt : ℤ)
    (acc : List MountainEntity × ℕ) (k : ℕ) :
    acc.1.length ≤ ((clusterStep h cap poolLen gY center cnt acc k).1).length := by
  unfold clusterStep
  dsimp only
  split
  · exact le_refl _
  · simp

theorem foldl_clusterStep_mono (h : Host) (cap poolLen : ℕ) (gY center : ℚ)
    (cnt : ℤ) (l : List ℕ) :
    ∀ acc : List MountainEntity × ℕ,
      acc.1.length ≤
        ((l.foldl (clusterStep h cap poolLen gY center cnt) acc).1).length := by
  induction l with
  | nil => intro acc; exact le_refl _
  | cons x xs ih =>
    intro acc
    exact le_trans (clusterStep_mono h cap poolLen gY center cnt acc x) (ih _)

theorem spawnMountainCluster_gt (h : Host) (cap : ℕ) (gY center : ℚ)
    (pool : List MountainEntity) (i : ℕ) (hlt : pool.length < cap)
    (hu : 0 ≤ h.random i) :
    pool.length < ((spawnMountainCluster h cap gY center pool i).1).length := by
  unfold spawnMountainCluster
  dsimp only
  rw [List.length_append, sortPeaksDesc_length]
  have hcnt : 1 ≤ (randInt h 3 5 i).1.toNat := by
    unfold randInt rand
    dsimp only
    have h3 : (3 : ℤ) ≤ ⌊(3 : ℚ) + h.random i * (5 + 1 - 3)⌋ := by
      apply Int.le_floor.mpr
      push_cast
      nlinarith
    omega
  obtain ⟨m, hm⟩ : ∃ m, (randInt h 3 5 i).1.toNat = m + 1 :=
    ⟨(randInt h 3 5 i).1.toNat - 1, by omega⟩
  rw [hm]
  have hfirst : 1 ≤ (((List.range (m + 1)).foldl
      (clusterStep h cap pool.length gY center (randInt h 3 5 i).1)
      ([], (randInt h 3 5 i).2)).1).length := by
    rw [List.range_succ_eq_map, List.foldl_cons]
    refine le_trans ?_ (foldl_clusterStep_mono h cap pool.length gY center _ _ _)
    unfold clusterStep
    dsimp only
    rw [if_neg (by simp; omega)]
    simp
  omega

theorem birdFollowers_ge (h : Host) (cap : ℕ) (height : ℚ) (leader : BirdEntity)
    (wX : ℚ) :
    ∀ (fuel k : ℕ) (pool : List BirdEntity) (i : ℕ),
      pool.length ≤ ((birdFollowers h cap height leader wX fuel k pool i).1).length := by
  intro fuel
  induction fuel with
  | zero => intro k pool i; exact le_refl _
  | succ n ih =>
    intro k pool i
    unfold birdFollowers
    split
    · exact le_refl _
    · refine le_trans ?_ (ih (k + 1) _ _)
      simp

theorem spawnBirdGroup_gt (h : Host) (cap : ℕ) (height worldOffset screenX : ℚ)
    (pool : List BirdEntity) (i : ℕ) :
    pool.length < ((spawnBirdGroup h cap height worldOffset screenX pool i).1).length := by
  unfold spawnBirdGroup
  dsimp only
  refine lt_of_lt_of_le ?_ (birdFollowers_ge h cap height _ _ _ _ _ _)
  simp

theorem spawnEntity_count_gt (h : Host) (t : SpawnType) (xq : ℚ) (s : EngineState)
    (i : ℕ) (hlt : poolCount s t < capsFor s.isMobile t)
    (hu : ∀ n, 0 ≤ h.random n) :
    poolCount s t < poolCount (spawnEntity h t xq s i).1 t := by
  cases t <;>
    (simp only [spawnEntity, poolCount, List.length_append, List.length_cons,
      List.length_nil]
     first
       | omega
       | exact spawnMountainCluster_gt h _ _ _ _ _
           (by simpa only [poolCount] using hlt) (hu _)
       | exact spawnBirdGroup_gt h _ _ _ _ _ _)

/-- C5: When a type's spawn threshold has been reached
(`cameraOffset + width ≥ nextSpawnAt`): at capacity, `trySpawn` adds no
entity to any pool but still advances `nextSpawnAt` to
`rightEdge + r` with `r` a fresh draw from `[minInterval, maxInterval]`;
below capacity, it spawns at screen position `width + rand(20, 80)` (the
pool grows) and advances `nextSpawnAt` the same way. -/
theorem c5_trySpawn_behavior (h : Host) (t : SpawnType) (s : EngineState) (i : ℕ)
    (hrand : ∀ n, 0 ≤ h.random n ∧ h.random n < 1)
    (hth : (s.spawners t).nextSpawnAt ≤ s.worldOffset + s.width)
    (hmm : (s.spawners t).minInterval ≤ (s.spawners t).maxInterval) :
    (capsFor s.isMobile t ≤ poolCount s t →
      (∀ t', poolCount (trySpawn h t s i).1 t' = poolCount s t') ∧
      ((trySpawn h t s i).1.spawners t).nextSpawnAt =
        s.worldOffset + s.width +
          (rand h (s.spawners t).minInterval (s.spawners t).maxInterval i).1 ∧
      (s.spawners t).minInterval ≤
        (rand h (s.spawners t).minInterval (s.spawners t).maxInterval i).1 ∧
      (rand h (s.spawners t).minInterval (s.spawners t).maxInterval i).1 ≤
        (s.spawners t).maxInterval) ∧
    (poolCount s t < capsFor s.isMobile t →
      20 ≤ (rand h 20 80 i).1 ∧ (rand h 20 80 i).1 ≤ 80 ∧
      (trySpawn h t s i).1 =
        setTracker
          (spawnEntity h t (s.width + (rand h 20 80 i).1) s (rand h 20 80 i).2).1 t
          { s.spawners t with
            nextSpawnAt := s.worldOffset + s.width +
              (rand h (s.spawners t).minInterval (s.spawners t).maxInterval
                (spawnEntity h t (s.width + (rand h 20 80 i).1) s
                  (rand h 20 80 i).2).2).1 } ∧
      poolCount s t < poolCount (trySpawn h t s i).1 t ∧
      (s.spawners t).minInterval ≤
        (rand h (s.spawners t).minInterval (s.spawners t).maxInterval
          (spawnEntity h t (s.width + (rand h 20 80 i).1) s (rand h 20 80 i).2).2).1 ∧
      (rand h (s.spawners t).minInterval (s.spawners t).maxInterval
        (spawnEntity h t (s.width + (rand h 20 80 i).1) s (rand h 20 80 i).2).2).1 ≤
        (s.spawners t).maxInterval) := by
  have hT : ¬ (s.worldOffset + s.width < (s.spawners t).nextSpawnAt) := not_lt.2 hth
  constructor
  · intro hcap
    unfold trySpawn
    dsimp only
    rw [if_neg hT, if_pos hcap]
    refine ⟨fun t' => rfl, ?_, ?_, ?_⟩
    · simp [setTracker]
    · exact (rand_mem h _ _ i (hrand i).1 (hrand i).2 hmm).1
    · exact (rand_mem h _ _ i (hrand i).1 (hrand i).2 hmm).2
  · intro hlt
    unfold trySpawn
    dsimp only
    rw [if_neg hT, if_neg (not_le.2 hlt)]
    refine ⟨(rand_mem h 20 80 i (hrand i).1 (hrand i).2 (by norm_num)).1,
      (rand_mem h 20 80 i (hrand i).1 (hrand i).2 (by norm_num)).2, rfl, ?_, ?_, ?_⟩
    · exact spawnEntity_count_gt h t _ s _ hlt (fun n => (hrand n).1)
    · exact (rand_mem h _ _ _ (hrand _).1 (hrand _).2 hmm).1
    · exact (rand_mem h _ _ _ (hrand _).1 (hrand _).2 hmm).2

/-- Witness for C5 at a concrete input: `host0`, the star type, and a
minimal state whose star spawner is past its threshold and whose star pool
is empty. -/
theorem c5_trySpawn_behavior_witness :
    ((∀ n, 0 ≤ host0.random n ∧ host0.random n < 1) ∧
      (((emptyState 100 50).spawners .star).nextSpawnAt ≤
        (emptyState 100 50).worldOffset + (emptyState 100 50).width) ∧
      ((emptyState 100 50).spawners .star).minInterval ≤
        ((emptyState 100 50).spawners .star).maxInterval) ∧
    (poolCount (emptyState 100 50) .star <
        capsFor (emptyState 100 50).isMobile .star →
      20 ≤ (rand host0 20 80 0).1 ∧ (rand host0 20 80 0).1 ≤ 80 ∧
      (trySpawn host0 .star (emptyState 100 50) 0).1 =
        setTracker
          (spawnEntity host0 .star ((emptyState 100 50).width + (rand host0 20 80 0).1)
            (emptyState 100 50) (rand host0 20 80 0).2).1 .star
          { (emptyState 100 50).spawners .star with
            nextSpawnAt := (emptyState 100 50).worldOffset + (emptyState 100 50).width +
              (rand host0 ((emptyState 100 50).spawners .star).minInterval
                ((emptyState 100 50).spawners .star).maxInterval
                (spawnEntity host0 .star
                  ((emptyState 100 50).width + (rand host0 20 80 0).1)
                  (emptyState 100 50) (rand host0 20 80 0).2).2).1 } ∧
      poolCount (emptyState 100 50) .star <
        poolCount (trySpawn host0 .star (emptyState 100 50) 0).1 .star ∧
      ((emptyState 100 50).spawners .star).minInterval ≤
        (rand host0 ((emptyState 100 50).spawners .star).minInterval
          ((emptyState 100 50).spawners .star).maxInterval
          (spawnEntity host0 .star ((emptyState 100 50).width + (rand host0 20 80 0).1)
            (emptyState 100 50) (rand host0 20 80 0).2).2).1 ∧
      (rand host0 ((emptyState 100 50).spawners .star).minInterval
        ((emptyState 100 50).spawners .star).maxInterval
        (spawnEntity host0 .star ((emptyState 100 50).width + (rand host0 20 80 0).1)
          (emptyState 100 50) (rand host0 20 80 0).2).2).1 ≤
        ((emptyState 100 50).spawners .star).maxInterval) :=
  ⟨⟨fun n => ⟨by norm_num [host0], by norm_num [host0]⟩,
      by norm_num [emptyState], by norm_num [emptyState]⟩,
    (c5_trySpawn_behavior host0 .star (emptyState 100 50) 0
      (fun n => ⟨by norm_num [host0], by norm_num [host0]⟩)
      (by norm_num [emptyState]) (by norm_num [emptyState])).2⟩

/-! ### Meteor lifecycle -/

/-- C7: Meteors are created with `life = 2`, `maxLife = 2`; across any
sequence of update steps life decreases at exactly 1.5 per clamped
simulated second (`d = min dt MAX_DT`); once the clamped time total
exceeds 4/3 s the life is ≤ 0; and no meteor with `life ≤ 0` survives the
cull pass at the end of any (non-reduced-motion) `update`. -/
theorem c7_meteor_lifecycle (h : Host) (ds : List ℚ)
    (hsum : 4 / 3 < (ds.map fun dt => min dt MAX_DT).sum) :
    (∀ height wX : ℚ, ∀ i : ℕ,
      (createMeteor h height wX i).1.life = 2 ∧
      (createMeteor h height wX i).1.maxLife = 2) ∧
    (∀ m : MeteorEntity,
      (ds.foldl (fun acc dt => stepMeteor h (min dt MAX_DT) acc) m).life =
        m.life - 1.5 * (ds.map fun dt => min dt MAX_DT).sum) ∧
    (∀ m : MeteorEntity, m.life = 2 →
      (ds.foldl (fun acc dt => stepMeteor h (min dt MAX_DT) acc) m).life ≤ 0) ∧
    (∀ (s : EngineState) (i : ℕ) (dt : ℚ) (m : MeteorEntity),
      s.reducedMotion = false → m ∈ (update h dt s i).1.meteors → 0 < m.life) := by
  have hfold : ∀ (ds' : List ℚ) (m : MeteorEntity),
      (ds'.foldl (fun acc dt => stepMeteor h (min dt MAX_DT) acc) m).life =
        m.life - 1.5 * (ds'.map fun dt => min dt MAX_DT).sum := by
    intro ds'
    induction ds' with
    | nil => intro m; simp
    | cons d rest ih =>
      intro m
      simp only [List.foldl_cons, List.map_cons, List.sum_cons, ih]
      unfold stepMeteor
      dsimp only
      ring
  refine ⟨fun height wX i => ⟨rfl, rfl⟩, hfold ds, ?_, ?_⟩
  · intro m hm
    rw [hfold ds m, hm]
    linarith
  · intro s i dt m hrm hmem
    unfold update at hmem
    rw [hrm] at hmem
    simp only [Bool.false_eq_true, if_false] at hmem
    have hf := (List.mem_filter.mp hmem).2
    rw [Bool.and_eq_true] at hf
    exact of_decide_eq_true hf.2

/-- Witness for C7: fourteen `update` steps of 0.1 clamped seconds total
1.4 > 4/3, and a freshly created meteor's life after folding them is ≤ 0. -/
theorem c7_meteor_lifecycle_witness :
    (4 : ℚ) / 3 <
      ((([1/10, 1/10, 1/10, 1/10, 1/10, 1/10, 1/10, 1/10, 1/10, 1/10, 1/10, 1/10,
          1/10, 1/10] : List ℚ)).map fun dt => min dt MAX_DT).sum ∧
    ((([1/10, 1/10, 1/10, 1/10, 1/10, 1/10, 1/10, 1/10, 1/10, 1/10, 1/10, 1/10,
        1/10, 1/10] : List ℚ)).foldl
      (fun acc dt => stepMeteor host0 (min dt MAX_DT) acc)
      (createMeteor host0 100 0 0).1).life ≤ 0 :=
  ⟨by norm_num [MAX_DT, min_def],
    (c7_meteor_lifecycle host0 _ (by norm_num [MAX_DT, min_def])).2.2.1 _ rfl⟩

/-! ### Wind oscillation -/

theorem windFormula_bounds (t : ℝ) :
    -0.5 ≤ windFormula Real.sin t ∧ windFormula Real.sin t ≤ 0.5 := by
  unfold windFormula
  have h1 := Real.neg_one_le_sin (t * 0.2)
  have h2 := Real.sin_le_one (t * 0.2)
  have h3 := Real.neg_one_le_sin (t * 0.07)
  have h4 := Real.sin_le_one (t * 0.07)
  constructor <;> nlinarith

/-- The two wind frequencies 0.2 and 0.07 have the rational ratio 20/7, so
`200π` is an exact common period: `0.2 · 200π = 20 · 2π`,
`0.07 · 200π = 7 · 2π`. -/
theorem windFormula_periodic (t : ℝ) :
    windFormula Real.sin (t + 200 * Real.pi) = windFormula Real.sin t := by
  unfold windFormula
  have h1 : (t + 200 * Real.pi) * 0.2 = t * 0.2 + ((20 : ℤ) : ℝ) * (2 * Real.pi) := by
    push_cast
    ring
  have h2 : (t + 200 * Real.pi) * 0.07 = t * 0.07 + ((7 : ℤ) : ℝ) * (2 * Real.pi) := by
    push_cast
    ring
  rw [h1, h2, Real.sin_add_int_mul_two_pi, Real.sin_add_int_mul_two_pi]

/-- C8 counterexample: the claim asserts no period `T ≤ 10000` exists, but
`T = 200π ≈ 628.3` is an exact period of the wind formula, because the
frequency ratio `0.2 / 0.07 = 20/7` is rational. -/
theorem c8_wind_period_counterexample :
    ∃ T : ℝ, 0 < T ∧ T ≤ 10000 ∧
      ∀ t, windFormula Real.sin (t + T) = windFormula Real.sin t :=
  ⟨200 * Real.pi,
    by positivity,
    by nlinarith [Real.pi_le_four],
    windFormula_periodic⟩

/-- C8 (amended): for all simulated time the wind value
`sin(t·0.2)·0.3 + sin(t·0.07)·0.2` lies within [−0.5, 0.5]; however the
two frequencies' ratio is the rational 20/7, so the wind is exactly
periodic with period `200π ≈ 628.3 s`, well inside a 10,000-second
window. -/
theorem c8_wind_bounded_and_periodic :
    (∀ t : ℝ, -0.5 ≤ windFormula Real.sin t ∧ windFormula Real.sin t ≤ 0.5) ∧
    0 < 200 * Real.pi ∧ 200 * Real.pi ≤ 10000 ∧
    (∀ t : ℝ, windFormula Real.sin (t + 200 * Real.pi) = windFormula Real.sin t) :=
  ⟨windFormula_bounds,
    by positivity,
    by nlinarith [Real.pi_le_four],
    windFormula_periodic⟩

/-! ### Knee geometry -/

/-- C3 counterexample: at hip = foot = (0, 0) the hip–foot distance is 0,
which is ≤ 2·UPPER_LEG, yet the computed knee coincides with the hip
(the `lDist > 0.1` degenerate guard zeroes the offset), so
|knee − hip| = 0 ≠ UPPER_LEG. -/
theorem c3_knee_degenerate_counterexample :
    dist2D 0 0 0 0 ≤ 2 * ((UPPER_LEG : ℚ) : ℝ) ∧
    dist2D 0 0 (kneePoint 0 0 0 0).1 (kneePoint 0 0 0 0).2 ≠ ((UPPER_LEG : ℚ) : ℝ) := by
  have hk : kneePoint 0 0 0 0 = (0, 0) := by
    unfold kneePoint
    norm_num
  constructor
  · unfold dist2D
    norm_num [UPPER_LEG]
  · rw [hk]
    unfold dist2D
    norm_num [UPPER_LEG]

/-- C3 (amended): for every hip/foot pair whose distance `d` satisfies
`0.1 < d ≤ 2·UPPER_LEG`, the computed knee satisfies
`|knee − hip| = UPPER_LEG` exactly; for `d > 2·UPPER_LEG` the
perpendicular offset degrades to zero and the knee is the segment
midpoint (the computation is total — no NaN).  The original claim's
range "d ≤ 2·upperLegLength" must exclude the degenerate guard region
`d ≤ 0.1`, where the source places the knee at the midpoint instead. -/
theorem c3_knee_geometry (hx hy fx fy : ℝ) :
    (0.1 < dist2D hx hy fx fy → dist2D hx hy fx fy ≤ 2 * ((UPPER_LEG : ℚ) : ℝ) →
      dist2D hx hy (kneePoint hx hy fx fy).1 (kneePoint hx hy fx fy).2 =
        ((UPPER_LEG : ℚ) : ℝ)) ∧
    (2 * ((UPPER_LEG : ℚ) : ℝ) < dist2D hx hy fx fy →
      (kneePoint hx hy fx fy).1 = (hx + fx) * 0.5 ∧
      (kneePoint hx hy fx fy).2 = (hy + fy) * 0.5) := by
  have hUL : ((UPPER_LEG : ℚ) : ℝ) = 8 := by norm_num [UPPER_LEG]
  have hargs : (fx - hx) * (fx - hx) + (fy - hy) * (fy - hy) =
      (fx - hx) ^ 2 + (fy - hy) ^ 2 := by ring
  have hnn : (0 : ℝ) ≤ (fx - hx) ^ 2 + (fy - hy) ^ 2 := by positivity
  have hD : Real.sqrt ((fx - hx) * (fx - hx) + (fy - hy) * (fy - hy)) =
      dist2D hx hy fx fy := by
    unfold dist2D
    rw [hargs]
  have hDsq : dist2D hx hy fx fy ^ 2 = (fx - hx) ^ 2 + (fy - hy) ^ 2 := by
    unfold dist2D
    exact Real.sq_sqrt hnn
  constructor
  · intro h1 h2
    rw [hUL] at h2
    unfold kneePoint
    dsimp only
    rw [hD, if_pos h1]
    set D := dist2D hx hy fx fy with hDdef
    have hDpos : 0 < D := lt_trans (by norm_num) h1
    have hbendArg : (0 : ℝ) ≤ ((UPPER_LEG : ℚ) : ℝ) ^ 2 - (D * 0.5) ^ 2 := by
      rw [hUL]
      nlinarith
    have hbendsq : Real.sqrt (((UPPER_LEG : ℚ) : ℝ) ^ 2 - (D * 0.5) ^ 2) ^ 2 =
        ((UPPER_LEG : ℚ) : ℝ) ^ 2 - (D * 0.5) ^ 2 := Real.sq_sqrt hbendArg
    set bend := Real.sqrt (((UPPER_LEG : ℚ) : ℝ) ^ 2 - (D * 0.5) ^ 2) with hbdef
    unfold dist2D
    have hknee : ((hx + fx) * 0.5 + (fy - hy) * (bend / D) - hx) ^ 2 +
        ((hy + fy) * 0.5 - (fx - hx) * (bend / D) - hy) ^ 2 =
        ((fx - hx) ^ 2 + (fy - hy) ^ 2) * (1 / 4 + (bend / D) ^ 2) := by
      ring
    rw [hknee]
    have hsub : (fx - hx) ^ 2 + (fy - hy) ^ 2 = D ^ 2 := hDsq.symm
    rw [hsub]
    have hexp : D ^ 2 * (1 / 4 + (bend / D) ^ 2) = ((UPPER_LEG : ℚ) : ℝ) ^ 2 := by
      have hDne : D ≠ 0 := ne_of_gt hDpos
      field_simp
      nlinarith [hbendsq]
    rw [hexp, hUL]
    rw [show (8 : ℝ) ^ 2 = 64 by norm_num,
      show (64 : ℝ) = 8 ^ 2 by norm_num]
    exact Real.sqrt_sq (by norm_num)
  · intro hgt
    rw [hUL] at hgt
    have h1 : (0.1 : ℝ) < dist2D hx hy fx fy := by linarith
    unfold kneePoint
    dsimp only
    rw [hD, if_pos h1]
    have hneg : ((UPPER_LEG : ℚ) : ℝ) ^ 2 - (dist2D hx hy fx fy * 0.5) ^ 2 ≤ 0 := by
      rw [hUL]
      nlinarith
    rw [Real.sqrt_eq_zero_of_nonpos hneg]
    constructor <;> (rw [zero_div]; ring)

/-- Witness for C3 at hip = (0,0), foot = (0,10): distance 10 lies in
(0.1, 16], and the computed knee is at distance UPPER_LEG = 8 from the
hip. -/
theorem c3_knee_geometry_witness :
    (0.1 : ℝ) < dist2D 0 0 0 10 ∧ dist2D 0 0 0 10 ≤ 2 * ((UPPER_LEG : ℚ) : ℝ) ∧
    dist2D 0 0 (kneePoint 0 0 0 10).1 (kneePoint 0 0 0 10).2 = ((UPPER_LEG : ℚ) : ℝ) := by
  have hd : dist2D 0 0 0 10 = 10 := by
    unfold dist2D
    rw [show ((0 : ℝ) - 0) ^ 2 + ((10 : ℝ) - 0) ^ 2 = 10 ^ 2 by norm_num,
      Real.sqrt_sq (by norm_num)]
  refine ⟨by rw [hd]; norm_num, by rw [hd]; norm_num [UPPER_LEG], ?_⟩
  exact (c3_knee_geometry 0 0 0 10).1 (by rw [hd]; norm_num)
    (by rw [hd]; norm_num [UPPER_LEG])

/-! ### Star draw-call counting -/

/-- C9 counterexample: with six visible stars, `drawStars` issues six
`fill` calls — the fill count is not bounded by the claimed ≈5-bucket
constant, and there is no alpha bucketing in the routine. -/
theorem c9_star_fills_counterexample :
    5 < countFills (drawStars host0
      { emptyState 100 50 with
        stars := [starAt 10, starAt 20, starAt 30, starAt 40, starAt 50,
          starAt 60] }) := by
  norm_num [drawStars, countFills, starAt, emptyState, sx, entityAlpha, isFill,
    host0, FADE_IN_DISTANCE, colors0, List.filter_cons, List.filter_nil,
    List.filter_append]

/-- C9 (amended): `drawStars` performs no alpha bucketing — it sets the
fill style once and then issues one `beginPath`/`arc`/`fill` triple per
visible star, so the number of `fill` draw calls equals the number of
visible stars (growing with star count up to the pool capacity) rather
than being bounded by a small constant. -/
theorem c9_star_fills_per_star (h : Host) (s : EngineState) :
    countFills (drawStars h s) = visibleStarCount s := by
  unfold drawStars visibleStarCount countFills
  generalize s.stars = l
  induction l with
  | nil => simp [isFill]
  | cons e rest ih =>
    by_cases hc : sx s.worldOffset e.worldX e.parallax < -10 ∨
        s.width + 10 < sx s.worldOffset e.worldX e.parallax
    · rcases hc with hl | hl
      · simp [hl, not_le.mpr hl, isFill, List.filter_append] at ih ⊢
        omega
      · simp [hl, not_le.mpr hl, isFill, List.filter_append] at ih ⊢
        omega
    · push_neg at hc
      simp [not_lt.mpr hc.1, not_lt.mpr hc.2, hc.1, hc.2, isFill,
        List.filter_append] at ih ⊢
      omega

/-! ### Draw purity and reproducibility -/

/-- C4 (amended): `draw()` never mutates the engine state (in the model it
is a pure function of the state that returns only the command trace and
the advanced random-stream index), but its output is NOT bit-identical
across two successive calls in general: the jellyfish tentacle length
takes a fresh random draw per tentacle per frame (deliberate per-frame
jitter in the source).  With no jellyfish in the pool the trace is
reproducible: two successive `draw()` calls emit identical commands. -/
theorem c4_draw_deterministic_without_jellyfish (h : Host) (s : EngineState)
    (i : ℕ) (hj : s.jellyfish = []) :
    (drawTwice h s i).1 = (drawTwice h s i).2 := by
  unfold drawTwice draw drawJellyfishOps
  rw [hj]
  rfl

/-- Witness for C4's amended theorem at a concrete jellyfish-free state. -/
theorem c4_draw_deterministic_witness :
    (emptyState 100 50).jellyfish = [] ∧
    (drawTwice host0 (emptyState 100 50) 0).1 =
      (drawTwice host0 (emptyState 100 50) 0).2 :=
  ⟨rfl, c4_draw_deterministic_without_jellyfish host0 (emptyState 100 50) 0 rfl⟩

/-- C4 counterexample: with one on-screen jellyfish and a random stream
whose first two reads differ, two successive `draw()` calls with no
intervening `update()` emit different command traces (the tentacle length
is re-randomized), refuting bit-identical output. -/
theorem c4_draw_not_bit_identical :
    (drawTwice hostJitter
      { emptyState 100 50 with reducedMotion := true, jellyfish := [jelly0] } 0).1 ≠
    (drawTwice hostJitter
      { emptyState 100 50 with reducedMotion := true, jellyfish := [jelly0] } 0).2 := by
  intro heq
  simp only [drawTwice, draw, drawJellyfishOps, drawStars, drawMeteors, drawClouds,
    drawWhales, drawBalloons, drawMountains, drawGroundLine, drawPebbles,
    drawGrassTufts, drawBirds, drawUfos, drawStickman, renderStickman,
    computeStickmanPose, staticPose, emptyState, jelly0, hostJitter, host0, sx,
    entityAlpha, colors0, rand, List.foldl_cons, List.foldl_nil, List.map_nil,
    List.flatten_nil, List.append_nil, List.nil_append, List.range_succ,
    List.range_zero] at heq
  norm_num at heq

end Explorer
